import Mathlib

/-!
# Vector addition offloaded through an OpenCL pipeline (`code.cpp`)

A shallow embedding of the host program: the file-scope variables become one
`State` record, every driver call appends a `Call` to `State.trace`, and
`exit(1)` is recorded in `State.exited`.  Everything the program cannot decide
itself (command line, `rand`, the file system, the answers of the OpenCL
driver) is read from an `Env`.
-/

namespace VectorAddOcl

/-! ## Machine integers -/

/-- Conversion of an `int` to a 64-bit `size_t`. -/
def toSizeT (x : Int) : Nat := (x % 2 ^ 64).toNat

/-- The expression `SZ * sizeof(int)`: `SZ` is converted to `size_t`, the
product is taken modulo `2^64`. -/
def byteSize (SZ : Int) : Nat := (toSizeT SZ * 4) % 2 ^ 64

/-- Two's complement wrap of a mathematical integer into `int`. -/
def wrapInt32 (x : Int) : Int := (x + 2 ^ 31) % 2 ^ 32 - 2 ^ 31

/-! ## Data model -/

/-- The three file-scope `cl_mem` variables. -/
inductive MemSlot
  | bufV1
  | bufV2
  | bufV_out
  deriving DecidableEq, Repr

/-- The three file-scope host arrays. -/
inductive HostSlot
  | v1
  | v2
  | v_out
  deriving DecidableEq, Repr

/-- Driver error codes used by the driver model. -/
def CL_SUCCESS : Int := 0
def CL_INVALID_MEM_OBJECT : Int := -38
def CL_INVALID_ARG_SIZE : Int := -51
def CL_INVALID_KERNEL_ARGS : Int := -52
def CL_INVALID_EVENT : Int := -58

/-- One observable operation of a run, with the arguments the program passed
and the answer it got. -/
inductive Call
  | getDeviceIDs (gpu : Bool) (ok : Bool)
  | createContext (err : Int)
  | fopen (ok : Bool)
  | buildProgram (err : Int)
  | createCommandQueue (err : Int)
  | createKernel (err : Int)
  | createBuffer (slot : MemSlot) (bytes : Nat) (ok : Bool)
  | enqueueWriteBuffer (slot : MemSlot) (blocking : Bool) (bytes : Nat) (src : HostSlot) (err : Int)
  | setKernelArg (idx : Nat) (argSize : Nat) (err : Int)
  | enqueueNDRangeKernel (global : Nat) (err : Int) (event : Option Nat)
  | waitForEvents (event : Option Nat) (err : Int)
  | enqueueReadBuffer (slot : MemSlot) (blocking : Bool) (bytes : Nat) (dst : HostSlot) (err : Int)
  | print (src : HostSlot)
  | releaseMemObject (slot : MemSlot)
  | releaseKernel
  | releaseCommandQueue
  | releaseProgram
  | releaseContext
  | free (slot : HostSlot)
  deriving DecidableEq, Repr

/-- A value bound to a kernel argument slot: the scalar, or the handle held by
one of the `cl_mem` variables. -/
inductive ArgVal
  | scalar (x : Int)
  | mem (slot : MemSlot)
  deriving DecidableEq, Repr

/-- Everything outside the program. -/
structure Env where
  /-- The value of `atoi(argv[1])` when `argc > 1`. -/
  argv1 : Option Int
  /-- The result of the k-th call of `rand()`. -/
  rand : Nat → Nat
  /-- Device enumeration finds an accelerator-class device. -/
  gpuOk : Bool
  /-- Device enumeration finds a general-purpose device. -/
  cpuOk : Bool
  /-- Code stored by `clCreateContext`. -/
  ctxErr : Int
  /-- Whether `fopen` returns a non-NULL handle. -/
  fopenOk : Bool
  /-- Code of program creation and compilation. -/
  buildErr : Int
  /-- Code stored by `clCreateCommandQueueWithProperties`. -/
  queueErr : Int
  /-- Code stored by `clCreateKernel`. -/
  kernelErr : Int
  /-- Whether the driver can allocate the buffer. -/
  allocOk : MemSlot → Bool
  /-- Contents of freshly allocated device memory. -/
  garbage : MemSlot → Nat → Int
  /-- Code returned by `clEnqueueWriteBuffer` on a valid buffer. -/
  writeErr : MemSlot → Int
  /-- Code returned by `clSetKernelArg` for a slot. -/
  argErr : Nat → Int
  /-- Code returned by `clEnqueueNDRangeKernel` on a fully bound kernel. -/
  launchErr : Int
  /-- Handle of the event created by a successful launch. -/
  eventId : Nat
  /-- Code returned by `clWaitForEvents` on a valid event. -/
  waitErr : Int
  /-- Code returned by `clEnqueueReadBuffer` on a valid buffer. -/
  readErr : Int

/-- The file-scope variables of the program, the device memory behind the
three buffer handles (`none` is the NULL handle), the kernel's argument
table, and what the run has done so far. -/
structure State where
  SZ : Int
  v1 : List Int
  v2 : List Int
  v_out : List Int
  bufV1 : Option (List Int)
  bufV2 : Option (List Int)
  bufV_out : Option (List Int)
  err : Int
  event : Option Nat
  karg0 : Option ArgVal
  karg1 : Option ArgVal
  karg2 : Option ArgVal
  karg3 : Option ArgVal
  randCalls : Nat
  stdout : List (List Int)
  trace : List Call
  exited : Option Nat

/-- Program start: `SZ = 100000000`, `event = NULL`, `err` zero-initialised. -/
def State.start : State :=
  { SZ := 100000000, v1 := [], v2 := [], v_out := [],
    bufV1 := none, bufV2 := none, bufV_out := none,
    err := 0, event := none,
    karg0 := none, karg1 := none, karg2 := none, karg3 := none,
    randCalls := 0, stdout := [], trace := [], exited := none }

def State.call (s : State) (c : Call) : State := { s with trace := s.trace ++ [c] }

def State.exit (s : State) (code : Nat) : State := { s with exited := some code }

def State.mem (s : State) : MemSlot → Option (List Int)
  | .bufV1 => s.bufV1
  | .bufV2 => s.bufV2
  | .bufV_out => s.bufV_out

def State.setMem (s : State) (slot : MemSlot) (m : Option (List Int)) : State :=
  match slot with
  | .bufV1 => { s with bufV1 := m }
  | .bufV2 => { s with bufV2 := m }
  | .bufV_out => { s with bufV_out := m }

def State.host (s : State) : HostSlot → List Int
  | .v1 => s.v1
  | .v2 => s.v2
  | .v_out => s.v_out

def State.setHost (s : State) (slot : HostSlot) (a : List Int) : State :=
  match slot with
  | .v1 => { s with v1 := a }
  | .v2 => { s with v2 := a }
  | .v_out => { s with v_out := a }

def State.setKarg (s : State) (idx : Nat) (v : ArgVal) : State :=
  match idx with
  | 0 => { s with karg0 := some v }
  | 1 => { s with karg1 := some v }
  | 2 => { s with karg2 := some v }
  | 3 => { s with karg3 := some v }
  | _ => s

/-! ## Driver model -/

/-- A transfer of `n` elements: the first `n` elements of the destination are
replaced by the first `n` elements of the source. -/
def overwrite (dst src : List Int) (n : Nat) : List Int := src.take n ++ dst.drop n

/-- Answer of `clCreateBuffer`: a zero size is rejected by the driver. -/
def allocAnswer (env : Env) (slot : MemSlot) (bytes : Nat) : Bool :=
  env.allocOk slot && (bytes != 0)

/-- `clCreateBuffer(context, CL_MEM_READ_WRITE, bytes, NULL, NULL)` assigned to
a `cl_mem` variable; the handle is NULL when the driver refuses. -/
def clCreateBuffer (env : Env) (slot : MemSlot) (bytes : Nat) (s : State) : State :=
  let m := if allocAnswer env slot bytes then
      some ((List.range (bytes / 4)).map (env.garbage slot)) else none
  (s.setMem slot m).call (Call.createBuffer slot bytes (allocAnswer env slot bytes))

/-- Code of a transfer on the buffer held by a `cl_mem` variable. -/
def transferCode (code : Int) (slot : MemSlot) (s : State) : Int :=
  match s.mem slot with
  | none => CL_INVALID_MEM_OBJECT
  | some _ => code

/-- `clEnqueueWriteBuffer(queue, buf, CL_TRUE, 0, bytes, host, 0, NULL, NULL)`. -/
def clEnqueueWriteBuffer (env : Env) (slot : MemSlot) (bytes : Nat) (src : HostSlot)
    (s : State) : State :=
  let code := transferCode (env.writeErr slot) slot s
  let s1 := if code = 0 then
      s.setMem slot ((s.mem slot).map fun old => overwrite old (s.host src) (bytes / 4))
    else s
  s1.call (Call.enqueueWriteBuffer slot true bytes src code)

/-- `clEnqueueReadBuffer(queue, buf, CL_TRUE, 0, bytes, host, 0, NULL, NULL)`. -/
def clEnqueueReadBuffer (env : Env) (slot : MemSlot) (bytes : Nat) (dst : HostSlot)
    (s : State) : State :=
  let code := transferCode env.readErr slot s
  let s1 := if code = 0 then
      s.setHost dst (overwrite (s.host dst) ((s.mem slot).getD []) (bytes / 4))
    else s
  s1.call (Call.enqueueReadBuffer slot true bytes dst code)

/-- `clSetKernelArg(kernel, idx, argSize, &value)`: the driver compares size
and type with the kernel signature and answers `env.argErr idx`. -/
def clSetKernelArg (env : Env) (idx : Nat) (argSize : Nat) (v : ArgVal) (s : State) : State :=
  let s1 := if env.argErr idx = 0 then s.setKarg idx v else s
  s1.call (Call.setKernelArg idx argSize (env.argErr idx))

/-- Modelled from the spec: the kernel `vector_add_ocl` of `vector_ops_ocl.cl`,
which is not among the sources.  Its parameters are the problem size and the
three buffers; lane `i` of the index space stores `a[i] + b[i]` into `out[i]`. -/
def vector_add_ocl (size : Int) (a b out : List Int) (global : Nat) : List Int :=
  (List.range out.length).map fun i =>
    if i < global ∧ (i : Int) < size then
      match a.get? i, b.get? i with
      | some x, some y => wrapInt32 (x + y)
      | _, _ => out.getD i 0
    else out.getD i 0

/-- The scalar and the buffers a launch works on, when all four slots are
bound and the three handles are live. -/
def boundBuffers (s : State) : Option (Int × MemSlot × MemSlot × MemSlot) :=
  match s.karg0, s.karg1, s.karg2, s.karg3 with
  | some (.scalar n), some (.mem a), some (.mem b), some (.mem o) =>
    if (s.mem a).isSome ∧ (s.mem b).isSome ∧ (s.mem o).isSome then some (n, a, b, o) else none
  | _, _, _, _ => none

/-- Code of a launch. -/
def launchCode (env : Env) (s : State) : Int :=
  match boundBuffers s with
  | none => CL_INVALID_KERNEL_ARGS
  | some _ => env.launchErr

/-- Device memory after the kernel has run over `global` lanes. -/
def runKernel (global : Nat) (s : State) : State :=
  match boundBuffers s with
  | none => s
  | some (n, a, b, o) =>
    s.setMem o (some (vector_add_ocl n ((s.mem a).getD []) ((s.mem b).getD [])
      ((s.mem o).getD []) global))

/-- `clEnqueueNDRangeKernel(queue, kernel, 1, NULL, global, NULL, 0, NULL, &event)`.
The queue is in-order, so the effect of the kernel is visible to every later
command of the queue.  `event` is written only by a launch that succeeds. -/
def clEnqueueNDRangeKernel (env : Env) (global : Nat) (s : State) : State :=
  let code := launchCode env s
  let s1 := if code = 0 then { runKernel global s with event := some env.eventId } else s
  s1.call (Call.enqueueNDRangeKernel global code s1.event)

/-- Code of a wait on the event variable: a NULL event is rejected. -/
def waitCode (env : Env) (s : State) : Int :=
  match s.event with
  | none => CL_INVALID_EVENT
  | some _ => env.waitErr

/-- `clWaitForEvents(1, &event)`. -/
def clWaitForEvents (env : Env) (s : State) : State :=
  s.call (Call.waitForEvents s.event (waitCode env s))

/-! ## The program -/

/-- `init(A, size)` for one of the host arrays: the array is filled with
`rand() % 100`; the loop does not run when `size <= 0`.  `malloc` is taken to
return the requested block. -/
def init (env : Env) (dst : HostSlot) (size : Int) (s : State) : State :=
  let a := (List.range size.toNat).map fun i => ((env.rand (s.randCalls + i) % 100 : Nat) : Int)
  { s.setHost dst a with randCalls := s.randCalls + size.toNat }

def PRINT : Nat := 1

/-- The numbers written by `print(A, size)`. -/
def printed (A : List Int) (size : Int) : List Int :=
  if PRINT = 1 ∧ size > 15 then A.take 5 ++ (A.drop (size.toNat - 5)).take 5
  else A.take size.toNat

/-- `print(A, size)` for one of the host arrays. -/
def print (src : HostSlot) (s : State) : State :=
  if PRINT = 0 then s
  else { s with stdout := s.stdout ++ [printed (s.host src) s.SZ] }.call (Call.print src)

/-- `free_memory()`. -/
def free_memory (s : State) : State :=
  let s := s.call (Call.releaseMemObject .bufV1)
  let s := s.call (Call.releaseMemObject .bufV2)
  let s := s.call (Call.releaseMemObject .bufV_out)
  let s := s.call Call.releaseKernel
  let s := s.call Call.releaseCommandQueue
  let s := s.call Call.releaseProgram
  let s := s.call Call.releaseContext
  let s := s.call (Call.free .v1)
  let s := s.call (Call.free .v2)
  s.call (Call.free .v_out)

/-- `copy_kernel_args()`: the four results of `clSetKernelArg` are discarded;
the test reads the file-scope `err`. -/
def copy_kernel_args (env : Env) (s : State) : State :=
  let s := clSetKernelArg env 0 4 (.scalar s.SZ) s
  let s := clSetKernelArg env 1 8 (.mem .bufV1) s
  let s := clSetKernelArg env 2 8 (.mem .bufV2) s
  let s := clSetKernelArg env 3 8 (.mem .bufV_out) s
  if s.err < 0 then s.exit 1 else s

/-- `setup_kernel_memory()`. -/
def setup_kernel_memory (env : Env) (s : State) : State :=
  let s := clCreateBuffer env .bufV1 (byteSize s.SZ) s
  let s := clCreateBuffer env .bufV2 (byteSize s.SZ) s
  let s := clCreateBuffer env .bufV_out (byteSize s.SZ) s
  let s := clEnqueueWriteBuffer env .bufV1 (byteSize s.SZ) .v1 s
  clEnqueueWriteBuffer env .bufV2 (byteSize s.SZ) .v2 s

/-- Modelled from the spec: `create_device`, declared in `code.cpp` but defined
past the end of the available source.  An accelerator-class device is
preferred, a general-purpose device is the fallback, and the run fails when
neither enumeration yields a device. -/
def create_device (env : Env) (s : State) : State :=
  let s := s.call (Call.getDeviceIDs true env.gpuOk)
  if env.gpuOk then s
  else
    let s := s.call (Call.getDeviceIDs false env.cpuOk)
    if env.cpuOk then s else s.exit 1

/-- Modelled from the spec: the rest of `build_program` after `rewind`, which
is cut off in the available source.  The text is compiled against the context
and device, and a rejection is fatal.  The visible part declares no local
`err`, so the code of the compilation is stored to the file-scope `err`, the
variable `copy_kernel_args` tests later. -/
def build_program_rest (env : Env) (s : State) : State :=
  let s := { s with err := env.buildErr }.call (Call.buildProgram env.buildErr)
  if env.buildErr < 0 then s.exit 1 else s

/-- `build_program(ctx, dev, filename)`: `fopen`, `exit(1)` on a NULL handle,
then the rest of the function. -/
def build_program (env : Env) (s : State) : State :=
  let s := s.call (Call.fopen env.fopenOk)
  if env.fopenOk = false then s.exit 1 else build_program_rest env s

/-- `setup_openCL_device_context_queue_kernel(filename, kernelname)`.  The
local `cl_int err` hides the file-scope `err`. -/
def setup_openCL_device_context_queue_kernel (env : Env) (s : State) : State :=
  let s := create_device env s
  if s.exited.isSome then s
  else
    let s := s.call (Call.createContext env.ctxErr)
    if env.ctxErr < 0 then s.exit 1
    else
      let s := build_program env s
      if s.exited.isSome then s
      else
        let s := s.call (Call.createCommandQueue env.queueErr)
        if env.queueErr < 0 then s.exit 1
        else
          let s := s.call (Call.createKernel env.kernelErr)
          if env.kernelErr < 0 then s.exit 1 else s

/-- The part of `main` before the OpenCL set-up: command line, the three
`init` calls, the two `print` calls. -/
def hostInit (env : Env) : State :=
  let s := { State.start with SZ := env.argv1.getD State.start.SZ }
  let s := init env .v1 s.SZ s
  let s := init env .v2 s.SZ s
  let s := init env .v_out s.SZ s
  let s := print .v1 s
  print .v2 s

/-- The part of `main` after `copy_kernel_args()` has returned. -/
def dispatch (env : Env) (s : State) : State :=
  let global := toSizeT s.SZ
  let s := clEnqueueNDRangeKernel env global s
  let s := clWaitForEvents env s
  let s := clEnqueueReadBuffer env .bufV_out (byteSize s.SZ) .v_out s
  let s := print .v_out s
  let s := free_memory s
  s.exit 0

/-- `main(argc, argv)`.  Falling off the end of `main` is exit status 0. -/
def main (env : Env) : State :=
  let s := hostInit env
  let s := setup_openCL_device_context_queue_kernel env s
  if s.exited.isSome then s
  else
    let s := setup_kernel_memory env s
    let s := copy_kernel_args env s
    if s.exited.isSome then s else dispatch env s

/-! ## Concrete environments -/

/-- A run in which every outside answer is a success, with `SZ = 8`,
`v1 = [1..8]`, `v2 = [8..1]`. -/
def env8 : Env :=
  { argv1 := some 8
    rand := fun k => ([1, 2, 3, 4, 5, 6, 7, 8, 8, 7, 6, 5, 4, 3, 2, 1] : List Nat).getD k 0
    gpuOk := true, cpuOk := true, ctxErr := 0, fopenOk := true, buildErr := 0,
    queueErr := 0, kernelErr := 0,
    allocOk := fun _ => true, garbage := fun _ _ => 0, writeErr := fun _ => 0,
    argErr := fun _ => 0, launchErr := 0, eventId := 1, waitErr := 0, readErr := 0 }

/-- As `env8`, but the driver rejects the binding of slot 1 with
`CL_INVALID_ARG_SIZE`. -/
def envArgFail : Env :=
  { env8 with argErr := fun i => if i = 1 then CL_INVALID_ARG_SIZE else 0 }

/-- As `env8`, but the second allocation fails. -/
def envAllocFail : Env :=
  { env8 with allocOk := fun m => decide (m ≠ MemSlot.bufV2) }

/-- As `env8`, but the launch is refused with `CL_OUT_OF_RESOURCES`. -/
def envLaunchFail : Env := { env8 with launchErr := -5 }

/-- As `env8`, but the kernel source file is missing. -/
def envNoFile : Env := { env8 with fopenOk := false }

/-- As `env8`, but the program has no entry point of the requested name
(`CL_INVALID_KERNEL_NAME`). -/
def envNoKernel : Env := { env8 with kernelErr := -46 }

/-- As `env8`, but the command line asks for `-1` elements and the driver
refuses the three allocations of `2^64 - 4` bytes. -/
def envNegative : Env := { env8 with argv1 := some (-1), allocOk := fun _ => false }

/-! ## Reading a trace -/

/-- The calls of device selection, as `create_device` issues them. -/
def deviceCalls (env : Env) : List Call :=
  if env.gpuOk then [Call.getDeviceIDs true true]
  else [Call.getDeviceIDs true false, Call.getDeviceIDs false env.cpuOk]

/-- Device selection yields a device. -/
def deviceOk (env : Env) : Bool := env.gpuOk || env.cpuOk

/-- The calls of `build_program`. -/
def buildCalls (env : Env) : List Call :=
  if env.fopenOk then [Call.fopen true, Call.buildProgram env.buildErr] else [Call.fopen false]

/-- `build_program` returns a program. -/
def buildOk (env : Env) : Bool := env.fopenOk && decide (0 ≤ env.buildErr)

/-- The calls of the set-up phase, stage by stage, stopping at the first stage
that fails. -/
def setupCalls (env : Env) : List Call :=
  deviceCalls env ++
    if deviceOk env then
      Call.createContext env.ctxErr ::
        if env.ctxErr < 0 then []
        else buildCalls env ++
          if buildOk env then
            Call.createCommandQueue env.queueErr ::
              if env.queueErr < 0 then []
              else [Call.createKernel env.kernelErr]
          else []
    else []

/-- The set-up phase returns to `main`. -/
def setupOk (env : Env) : Bool :=
  deviceOk env && decide (0 ≤ env.ctxErr) && buildOk env && decide (0 ≤ env.queueErr) &&
    decide (0 ≤ env.kernelErr)

/-- The call reports a failure to the program. -/
def Call.failed : Call → Bool
  | .getDeviceIDs _ ok => !ok
  | .createContext e => decide (e < 0)
  | .fopen ok => !ok
  | .buildProgram e => decide (e < 0)
  | .createCommandQueue e => decide (e < 0)
  | .createKernel e => decide (e < 0)
  | .createBuffer _ _ ok => !ok
  | .enqueueWriteBuffer _ _ _ _ e => decide (e < 0)
  | .setKernelArg _ _ e => decide (e < 0)
  | .enqueueNDRangeKernel _ e _ => decide (e < 0)
  | .waitForEvents _ e => decide (e < 0)
  | .enqueueReadBuffer _ _ _ _ e => decide (e < 0)
  | _ => false

/-- The call is an allocation, transfer, binding, launch or wait that did not
report success (`CL_SUCCESS`, or a non-NULL buffer). -/
def Call.pipelineError : Call → Bool
  | .createBuffer _ _ ok => !ok
  | .enqueueWriteBuffer _ _ _ _ e => decide (e ≠ 0)
  | .setKernelArg _ _ e => decide (e ≠ 0)
  | .enqueueNDRangeKernel _ e _ => decide (e ≠ 0)
  | .waitForEvents _ e => decide (e ≠ 0)
  | .enqueueReadBuffer _ _ _ _ e => decide (e ≠ 0)
  | _ => false

/-- The call is `clCreateBuffer`. -/
def Call.isCreateBuffer : Call → Bool
  | .createBuffer _ _ _ => true
  | _ => false

/-- The call is a creation of the context, the queue or the kernel. -/
def Call.isCreation : Call → Bool
  | .createContext _ => true
  | .createCommandQueue _ => true
  | .createKernel _ => true
  | _ => false

/-- The call belongs to the stages after buffer allocation: transfer,
binding, launch, wait or release. -/
def Call.isPipeline : Call → Bool
  | .enqueueWriteBuffer _ _ _ _ _ => true
  | .setKernelArg _ _ _ => true
  | .enqueueNDRangeKernel _ _ _ => true
  | .waitForEvents _ _ => true
  | .enqueueReadBuffer _ _ _ _ _ => true
  | .releaseMemObject _ => true
  | .releaseKernel => true
  | .releaseCommandQueue => true
  | .releaseProgram => true
  | .releaseContext => true
  | .free _ => true
  | _ => false

/-- The stages of a run, named as in the control-flow description. -/
inductive Stage
  | deviceSelection
  | contextCreation
  | programBuild
  | queueCreation
  | kernelResolution
  | bufferAllocUpload
  | argumentBinding
  | dispatchSync
  | teardown
  deriving DecidableEq, Repr

/-- The stage a call belongs to; `print` belongs to none. -/
def Call.stage : Call → Option Stage
  | .getDeviceIDs _ _ => some .deviceSelection
  | .createContext _ => some .contextCreation
  | .fopen _ => some .programBuild
  | .buildProgram _ => some .programBuild
  | .createCommandQueue _ => some .queueCreation
  | .createKernel _ => some .kernelResolution
  | .createBuffer _ _ _ => some .bufferAllocUpload
  | .enqueueWriteBuffer _ _ _ _ _ => some .bufferAllocUpload
  | .setKernelArg _ _ _ => some .argumentBinding
  | .enqueueNDRangeKernel _ _ _ => some .dispatchSync
  | .waitForEvents _ _ => some .dispatchSync
  | .enqueueReadBuffer _ _ _ _ _ => some .dispatchSync
  | .print _ => none
  | .releaseMemObject _ => some .teardown
  | .releaseKernel => some .teardown
  | .releaseCommandQueue => some .teardown
  | .releaseProgram => some .teardown
  | .releaseContext => some .teardown
  | .free _ => some .teardown

/-- The stages of a trace in the order they are entered. -/
def stagesOf (t : List Call) : List Stage :=
  (t.filterMap Call.stage).destutter (fun a b => a ≠ b)

/-- The byte size passed to an allocation or a transfer. -/
def Call.bytes? : Call → Option Nat
  | .createBuffer _ b _ => some b
  | .enqueueWriteBuffer _ _ b _ _ => some b
  | .enqueueReadBuffer _ _ b _ _ => some b
  | _ => none

/-- The global work size passed to a launch. -/
def Call.global? : Call → Option Nat
  | .enqueueNDRangeKernel g _ _ => some g
  | _ => none

/-- The calls of `free_memory`, in program order. -/
def releaseCalls : List Call :=
  [Call.releaseMemObject .bufV1, Call.releaseMemObject .bufV2, Call.releaseMemObject .bufV_out,
   Call.releaseKernel, Call.releaseCommandQueue, Call.releaseProgram, Call.releaseContext,
   Call.free .v1, Call.free .v2, Call.free .v_out]

/-- The calls of `main` after a set-up phase that returned, for element count
`SZ`; the answers of the transfers, the launch, the wait and the readback are
parameters. -/
def pipelineCalls (env : Env) (SZ : Int) (w1 w2 l : Int) (ev : Option Nat) (wc rc : Int) :
    List Call :=
  [Call.createBuffer .bufV1 (byteSize SZ) (allocAnswer env .bufV1 (byteSize SZ)),
   Call.createBuffer .bufV2 (byteSize SZ) (allocAnswer env .bufV2 (byteSize SZ)),
   Call.createBuffer .bufV_out (byteSize SZ) (allocAnswer env .bufV_out (byteSize SZ)),
   Call.enqueueWriteBuffer .bufV1 true (byteSize SZ) .v1 w1,
   Call.enqueueWriteBuffer .bufV2 true (byteSize SZ) .v2 w2,
   Call.setKernelArg 0 4 (env.argErr 0),
   Call.setKernelArg 1 8 (env.argErr 1),
   Call.setKernelArg 2 8 (env.argErr 2),
   Call.setKernelArg 3 8 (env.argErr 3),
   Call.enqueueNDRangeKernel (toSizeT SZ) l ev,
   Call.waitForEvents ev wc,
   Call.enqueueReadBuffer .bufV_out true (byteSize SZ) .v_out rc,
   Call.print .v_out] ++ releaseCalls

/-! ## Frame lemmas: what each operation leaves alone -/

section Frame

variable (env : Env) (s : State)

@[simp] theorem call_trace (c : Call) : (s.call c).trace = s.trace ++ [c] := rfl
@[simp] theorem call_exited (c : Call) : (s.call c).exited = s.exited := rfl
@[simp] theorem call_err (c : Call) : (s.call c).err = s.err := rfl
@[simp] theorem call_SZ (c : Call) : (s.call c).SZ = s.SZ := rfl
@[simp] theorem call_event (c : Call) : (s.call c).event = s.event := rfl
@[simp] theorem call_mem (c : Call) (m : MemSlot) : (s.call c).mem m = s.mem m := by
  cases m <;> rfl
@[simp] theorem call_host (c : Call) (h : HostSlot) : (s.call c).host h = s.host h := by
  cases h <;> rfl

@[simp] theorem exit_trace (n : Nat) : (s.exit n).trace = s.trace := rfl
@[simp] theorem exit_exited (n : Nat) : (s.exit n).exited = some n := rfl
@[simp] theorem exit_err (n : Nat) : (s.exit n).err = s.err := rfl
@[simp] theorem exit_SZ (n : Nat) : (s.exit n).SZ = s.SZ := rfl

@[simp] theorem setMem_trace (m : MemSlot) (x : Option (List Int)) :
    (s.setMem m x).trace = s.trace := by cases m <;> rfl
@[simp] theorem setMem_exited (m : MemSlot) (x : Option (List Int)) :
    (s.setMem m x).exited = s.exited := by cases m <;> rfl
@[simp] theorem setMem_err (m : MemSlot) (x : Option (List Int)) :
    (s.setMem m x).err = s.err := by cases m <;> rfl
@[simp] theorem setMem_SZ (m : MemSlot) (x : Option (List Int)) :
    (s.setMem m x).SZ = s.SZ := by cases m <;> rfl
@[simp] theorem setMem_event (m : MemSlot) (x : Option (List Int)) :
    (s.setMem m x).event = s.event := by cases m <;> rfl

@[simp] theorem setHost_trace (h : HostSlot) (x : List Int) :
    (s.setHost h x).trace = s.trace := by cases h <;> rfl
@[simp] theorem setHost_exited (h : HostSlot) (x : List Int) :
    (s.setHost h x).exited = s.exited := by cases h <;> rfl
@[simp] theorem setHost_err (h : HostSlot) (x : List Int) :
    (s.setHost h x).err = s.err := by cases h <;> rfl
@[simp] theorem setHost_SZ (h : HostSlot) (x : List Int) :
    (s.setHost h x).SZ = s.SZ := by cases h <;> rfl
@[simp] theorem setHost_event (h : HostSlot) (x : List Int) :
    (s.setHost h x).event = s.event := by cases h <;> rfl

@[simp] theorem setKarg_trace (i : Nat) (v : ArgVal) : (s.setKarg i v).trace = s.trace := by
  unfold State.setKarg; split <;> rfl
@[simp] theorem setKarg_exited (i : Nat) (v : ArgVal) : (s.setKarg i v).exited = s.exited := by
  unfold State.setKarg; split <;> rfl
@[simp] theorem setKarg_err (i : Nat) (v : ArgVal) : (s.setKarg i v).err = s.err := by
  unfold State.setKarg; split <;> rfl
@[simp] theorem setKarg_SZ (i : Nat) (v : ArgVal) : (s.setKarg i v).SZ = s.SZ := by
  unfold State.setKarg; split <;> rfl
@[simp] theorem setKarg_event (i : Nat) (v : ArgVal) : (s.setKarg i v).event = s.event := by
  unfold State.setKarg; split <;> rfl

@[simp] theorem runKernel_trace (g : Nat) : (runKernel g s).trace = s.trace := by
  unfold runKernel; split <;> simp
@[simp] theorem runKernel_exited (g : Nat) : (runKernel g s).exited = s.exited := by
  unfold runKernel; split <;> simp
@[simp] theorem runKernel_err (g : Nat) : (runKernel g s).err = s.err := by
  unfold runKernel; split <;> simp
@[simp] theorem runKernel_SZ (g : Nat) : (runKernel g s).SZ = s.SZ := by
  unfold runKernel; split <;> simp

end Frame

/-! ## The driver operations: trace and frame -/

section Driver

variable (env : Env) (s : State)

@[simp] theorem clCreateBuffer_trace (m : MemSlot) (b : Nat) :
    (clCreateBuffer env m b s).trace = s.trace ++ [Call.createBuffer m b (allocAnswer env m b)] := by
  simp [clCreateBuffer]
@[simp] theorem clCreateBuffer_exited (m : MemSlot) (b : Nat) :
    (clCreateBuffer env m b s).exited = s.exited := by simp [clCreateBuffer]
@[simp] theorem clCreateBuffer_err (m : MemSlot) (b : Nat) :
    (clCreateBuffer env m b s).err = s.err := by simp [clCreateBuffer]
@[simp] theorem clCreateBuffer_SZ (m : MemSlot) (b : Nat) :
    (clCreateBuffer env m b s).SZ = s.SZ := by simp [clCreateBuffer]

@[simp] theorem clEnqueueWriteBuffer_trace (m : MemSlot) (b : Nat) (h : HostSlot) :
    (clEnqueueWriteBuffer env m b h s).trace =
      s.trace ++ [Call.enqueueWriteBuffer m true b h (transferCode (env.writeErr m) m s)] := by
  simp only [clEnqueueWriteBuffer]; split_ifs <;> simp
@[simp] theorem clEnqueueWriteBuffer_exited (m : MemSlot) (b : Nat) (h : HostSlot) :
    (clEnqueueWriteBuffer env m b h s).exited = s.exited := by
  simp only [clEnqueueWriteBuffer]; split_ifs <;> simp
@[simp] theorem clEnqueueWriteBuffer_err (m : MemSlot) (b : Nat) (h : HostSlot) :
    (clEnqueueWriteBuffer env m b h s).err = s.err := by
  simp only [clEnqueueWriteBuffer]; split_ifs <;> simp
@[simp] theorem clEnqueueWriteBuffer_SZ (m : MemSlot) (b : Nat) (h : HostSlot) :
    (clEnqueueWriteBuffer env m b h s).SZ = s.SZ := by
  simp only [clEnqueueWriteBuffer]; split_ifs <;> simp

@[simp] theorem clEnqueueReadBuffer_trace (m : MemSlot) (b : Nat) (h : HostSlot) :
    (clEnqueueReadBuffer env m b h s).trace =
      s.trace ++ [Call.enqueueReadBuffer m true b h (transferCode env.readErr m s)] := by
  simp only [clEnqueueReadBuffer]; split_ifs <;> simp
@[simp] theorem clEnqueueReadBuffer_exited (m : MemSlot) (b : Nat) (h : HostSlot) :
    (clEnqueueReadBuffer env m b h s).exited = s.exited := by
  simp only [clEnqueueReadBuffer]; split_ifs <;> simp
@[simp] theorem clEnqueueReadBuffer_err (m : MemSlot) (b : Nat) (h : HostSlot) :
    (clEnqueueReadBuffer env m b h s).err = s.err := by
  simp only [clEnqueueReadBuffer]; split_ifs <;> simp
@[simp] theorem clEnqueueReadBuffer_SZ (m : MemSlot) (b : Nat) (h : HostSlot) :
    (clEnqueueReadBuffer env m b h s).SZ = s.SZ := by
  simp only [clEnqueueReadBuffer]; split_ifs <;> simp

@[simp] theorem clSetKernelArg_trace (i n : Nat) (v : ArgVal) :
    (clSetKernelArg env i n v s).trace = s.trace ++ [Call.setKernelArg i n (env.argErr i)] := by
  simp only [clSetKernelArg]; split_ifs <;> simp
@[simp] theorem clSetKernelArg_exited (i n : Nat) (v : ArgVal) :
    (clSetKernelArg env i n v s).exited = s.exited := by
  simp only [clSetKernelArg]; split_ifs <;> simp
@[simp] theorem clSetKernelArg_err (i n : Nat) (v : ArgVal) :
    (clSetKernelArg env i n v s).err = s.err := by
  simp only [clSetKernelArg]; split_ifs <;> simp
@[simp] theorem clSetKernelArg_SZ (i n : Nat) (v : ArgVal) :
    (clSetKernelArg env i n v s).SZ = s.SZ := by
  simp only [clSetKernelArg]; split_ifs <;> simp

/-- The event variable after a launch. -/
theorem clEnqueueNDRangeKernel_event (g : Nat) :
    (clEnqueueNDRangeKernel env g s).event =
      if launchCode env s = 0 then some env.eventId else s.event := by
  simp only [clEnqueueNDRangeKernel]; split_ifs <;> simp
@[simp] theorem clEnqueueNDRangeKernel_trace (g : Nat) :
    (clEnqueueNDRangeKernel env g s).trace =
      s.trace ++ [Call.enqueueNDRangeKernel g (launchCode env s)
        (clEnqueueNDRangeKernel env g s).event] := by
  simp only [clEnqueueNDRangeKernel]; split_ifs <;> simp
@[simp] theorem clEnqueueNDRangeKernel_exited (g : Nat) :
    (clEnqueueNDRangeKernel env g s).exited = s.exited := by
  simp only [clEnqueueNDRangeKernel]; split_ifs <;> simp
@[simp] theorem clEnqueueNDRangeKernel_err (g : Nat) :
    (clEnqueueNDRangeKernel env g s).err = s.err := by
  simp only [clEnqueueNDRangeKernel]; split_ifs <;> simp
@[simp] theorem clEnqueueNDRangeKernel_SZ (g : Nat) :
    (clEnqueueNDRangeKernel env g s).SZ = s.SZ := by
  simp only [clEnqueueNDRangeKernel]; split_ifs <;> simp

@[simp] theorem clWaitForEvents_trace :
    (clWaitForEvents env s).trace = s.trace ++ [Call.waitForEvents s.event (waitCode env s)] := by
  simp [clWaitForEvents]
@[simp] theorem clWaitForEvents_exited : (clWaitForEvents env s).exited = s.exited := by
  simp [clWaitForEvents]
@[simp] theorem clWaitForEvents_err : (clWaitForEvents env s).err = s.err := by
  simp [clWaitForEvents]
@[simp] theorem clWaitForEvents_SZ : (clWaitForEvents env s).SZ = s.SZ := by
  simp [clWaitForEvents]
@[simp] theorem clWaitForEvents_event : (clWaitForEvents env s).event = s.event := by
  simp [clWaitForEvents]

@[simp] theorem init_trace (h : HostSlot) (n : Int) : (init env h n s).trace = s.trace := by
  simp [init]
@[simp] theorem init_exited (h : HostSlot) (n : Int) : (init env h n s).exited = s.exited := by
  simp [init]
@[simp] theorem init_err (h : HostSlot) (n : Int) : (init env h n s).err = s.err := by
  simp [init]
@[simp] theorem init_SZ (h : HostSlot) (n : Int) : (init env h n s).SZ = s.SZ := by
  simp [init]

@[simp] theorem print_trace (h : HostSlot) : (print h s).trace = s.trace ++ [Call.print h] := by
  simp [print, PRINT]
@[simp] theorem print_exited (h : HostSlot) : (print h s).exited = s.exited := by
  simp [print, PRINT]
@[simp] theorem print_err (h : HostSlot) : (print h s).err = s.err := by
  simp [print, PRINT]
@[simp] theorem print_SZ (h : HostSlot) : (print h s).SZ = s.SZ := by
  simp [print, PRINT]
@[simp] theorem print_event (h : HostSlot) : (print h s).event = s.event := by
  simp [print, PRINT]

end Driver

/-- A transfer reports success only when the driver does. -/
theorem transferCode_zero (c : Int) (m : MemSlot) (s : State) (h : transferCode c m s = 0) :
    c = 0 := by
  unfold transferCode at h
  split at h
  · simp [CL_INVALID_MEM_OBJECT] at h
  · exact h

/-- A launch reports success only when the driver does. -/
theorem launchCode_zero (env : Env) (s : State) (h : launchCode env s = 0) :
    env.launchErr = 0 := by
  unfold launchCode at h
  split at h
  · simp [CL_INVALID_KERNEL_ARGS] at h
  · exact h

/-! ## The program's functions: trace and frame -/

section Program

variable (env : Env) (s : State)

theorem hostInit_trace : (hostInit env).trace = [Call.print .v1, Call.print .v2] := by
  simp [hostInit, State.start]

theorem hostInit_exited : (hostInit env).exited = none := by
  simp [hostInit, State.start]

theorem hostInit_err : (hostInit env).err = 0 := by
  simp [hostInit, State.start]

theorem hostInit_SZ : (hostInit env).SZ = env.argv1.getD 100000000 := by
  simp [hostInit, State.start]

theorem free_memory_trace : (free_memory s).trace = s.trace ++ releaseCalls := by
  simp [free_memory, releaseCalls]

theorem free_memory_exited : (free_memory s).exited = s.exited := by
  simp [free_memory]

theorem free_memory_SZ : (free_memory s).SZ = s.SZ := by
  simp [free_memory]

theorem dispatch_SZ : (dispatch env s).SZ = s.SZ := by
  simp [dispatch, free_memory_SZ]

theorem setup_kernel_memory_trace :
    (setup_kernel_memory env s).trace = s.trace ++
      [Call.createBuffer .bufV1 (byteSize s.SZ) (allocAnswer env .bufV1 (byteSize s.SZ)),
       Call.createBuffer .bufV2 (byteSize s.SZ) (allocAnswer env .bufV2 (byteSize s.SZ)),
       Call.createBuffer .bufV_out (byteSize s.SZ) (allocAnswer env .bufV_out (byteSize s.SZ)),
       Call.enqueueWriteBuffer .bufV1 true (byteSize s.SZ) .v1
         (transferCode (env.writeErr .bufV1) .bufV1
           (clCreateBuffer env .bufV_out (byteSize s.SZ)
             (clCreateBuffer env .bufV2 (byteSize s.SZ)
               (clCreateBuffer env .bufV1 (byteSize s.SZ) s)))),
       Call.enqueueWriteBuffer .bufV2 true (byteSize s.SZ) .v2
         (transferCode (env.writeErr .bufV2) .bufV2
           (clEnqueueWriteBuffer env .bufV1 (byteSize s.SZ) .v1
             (clCreateBuffer env .bufV_out (byteSize s.SZ)
               (clCreateBuffer env .bufV2 (byteSize s.SZ)
                 (clCreateBuffer env .bufV1 (byteSize s.SZ) s)))))] := by
  simp [setup_kernel_memory]

theorem setup_kernel_memory_calls :
    ∃ w1 w2, (setup_kernel_memory env s).trace = s.trace ++
      [Call.createBuffer .bufV1 (byteSize s.SZ) (allocAnswer env .bufV1 (byteSize s.SZ)),
       Call.createBuffer .bufV2 (byteSize s.SZ) (allocAnswer env .bufV2 (byteSize s.SZ)),
       Call.createBuffer .bufV_out (byteSize s.SZ) (allocAnswer env .bufV_out (byteSize s.SZ)),
       Call.enqueueWriteBuffer .bufV1 true (byteSize s.SZ) .v1 w1,
       Call.enqueueWriteBuffer .bufV2 true (byteSize s.SZ) .v2 w2] ∧
      (w1 = 0 → env.writeErr .bufV1 = 0) ∧ (w2 = 0 → env.writeErr .bufV2 = 0) :=
  ⟨_, _, setup_kernel_memory_trace env s, transferCode_zero _ _ _, transferCode_zero _ _ _⟩

theorem setup_kernel_memory_exited : (setup_kernel_memory env s).exited = s.exited := by
  simp [setup_kernel_memory]

theorem setup_kernel_memory_err : (setup_kernel_memory env s).err = s.err := by
  simp [setup_kernel_memory]

theorem setup_kernel_memory_SZ : (setup_kernel_memory env s).SZ = s.SZ := by
  simp [setup_kernel_memory]

theorem copy_kernel_args_trace :
    (copy_kernel_args env s).trace = s.trace ++
      [Call.setKernelArg 0 4 (env.argErr 0), Call.setKernelArg 1 8 (env.argErr 1),
       Call.setKernelArg 2 8 (env.argErr 2), Call.setKernelArg 3 8 (env.argErr 3)] := by
  simp only [copy_kernel_args]; split_ifs <;> simp

theorem copy_kernel_args_exited :
    (copy_kernel_args env s).exited = if s.err < 0 then some 1 else s.exited := by
  simp only [copy_kernel_args]; split_ifs <;> simp_all

theorem copy_kernel_args_SZ : (copy_kernel_args env s).SZ = s.SZ := by
  simp only [copy_kernel_args]; split_ifs <;> simp [State.exit]

theorem create_device_trace : (create_device env s).trace = s.trace ++ deviceCalls env := by
  simp only [create_device, deviceCalls]; split_ifs <;> simp_all

theorem create_device_exited :
    (create_device env s).exited = if deviceOk env then s.exited else some 1 := by
  simp only [create_device, deviceOk]; split_ifs <;> simp_all

theorem build_program_trace : (build_program env s).trace = s.trace ++ buildCalls env := by
  simp only [build_program, build_program_rest, buildCalls]; split_ifs <;> simp_all

theorem build_program_exited :
    (build_program env s).exited = if buildOk env then s.exited else some 1 := by
  simp only [build_program, build_program_rest, buildOk]
  split_ifs <;> first | (simp_all; done) | (simp_all; omega)

theorem build_program_err (h : buildOk env = true) : 0 ≤ (build_program env s).err := by
  simp only [buildOk, Bool.and_eq_true, decide_eq_true_eq] at h
  simp only [build_program, build_program_rest]; split_ifs <;> simp_all [State.exit, State.call]

theorem build_program_SZ : (build_program env s).SZ = s.SZ := by
  simp only [build_program, build_program_rest]; split_ifs <;> simp [State.exit, State.call]

theorem setup_trace (h : s.exited = none) :
    (setup_openCL_device_context_queue_kernel env s).trace = s.trace ++ setupCalls env := by
  simp only [setup_openCL_device_context_queue_kernel, setupCalls, create_device_exited,
    build_program_exited, call_exited, h]
  split_ifs <;>
    simp_all [create_device_trace, build_program_trace, exit_trace, call_trace]

theorem setup_exited (h : s.exited = none) :
    (setup_openCL_device_context_queue_kernel env s).exited =
      if setupOk env then none else some 1 := by
  simp only [setup_openCL_device_context_queue_kernel, setupOk, create_device_exited,
    build_program_exited, call_exited, h]
  split_ifs <;> (try simp_all [create_device_exited, build_program_exited]) <;> omega

theorem setup_err (h : s.exited = none) (hok : setupOk env = true) :
    0 ≤ (setup_openCL_device_context_queue_kernel env s).err := by
  have hb : buildOk env = true := by
    simp only [setupOk, Bool.and_eq_true] at hok; exact hok.1.1.2
  have := build_program_err env ((create_device env s).call (Call.createContext env.ctxErr)) hb
  simp only [setupOk, Bool.and_eq_true, decide_eq_true_eq] at hok
  simp only [setup_openCL_device_context_queue_kernel, create_device_exited,
    build_program_exited, call_exited, h]
  split_ifs <;> first | omega | simp_all

theorem setup_SZ :
    (setup_openCL_device_context_queue_kernel env s).SZ = s.SZ := by
  have hd : (create_device env s).SZ = s.SZ := by
    simp only [create_device]; split_ifs <;> simp
  simp only [setup_openCL_device_context_queue_kernel]
  split_ifs <;> simp [build_program_SZ, hd]

/-- The state `main` hands to `setup_kernel_memory`. -/
theorem main_SZ_afterSetup :
    (setup_openCL_device_context_queue_kernel env (hostInit env)).SZ =
      env.argv1.getD 100000000 := by
  rw [setup_SZ, hostInit_SZ]

theorem main_exited : (main env).exited = if setupOk env then some 0 else some 1 := by
  have h1 := setup_exited env (hostInit env) (hostInit_exited env)
  have h2 := setup_err env (hostInit env) (hostInit_exited env)
  simp only [main, copy_kernel_args_exited, setup_kernel_memory_exited,
    setup_kernel_memory_err, h1]
  by_cases hok : setupOk env = true
  · have h3 := h2 hok
    simp [hok, not_lt.mpr h3, dispatch]
  · simp [hok, h1]

theorem main_SZ : (main env).SZ = env.argv1.getD 100000000 := by
  have h4 := main_SZ_afterSetup env
  simp only [main]
  split_ifs <;>
    simp [h4, dispatch_SZ, copy_kernel_args_SZ, setup_kernel_memory_SZ]

theorem main_trace_failed (h : setupOk env = false) :
    (main env).trace = [Call.print .v1, Call.print .v2] ++ setupCalls env := by
  have h1 := setup_exited env (hostInit env) (hostInit_exited env)
  have h2 := setup_trace env (hostInit env) (hostInit_exited env)
  simp [main, h1, h, h2, hostInit_trace]

/-- When the set-up phase returns, `main` runs every later stage. -/
theorem main_eq_ok (h : setupOk env = true) :
    main env = dispatch env (copy_kernel_args env (setup_kernel_memory env
      (setup_openCL_device_context_queue_kernel env (hostInit env)))) := by
  have h1 := setup_exited env (hostInit env) (hostInit_exited env)
  have h3 := setup_err env (hostInit env) (hostInit_exited env) h
  simp [main, copy_kernel_args_exited, setup_kernel_memory_exited,
    setup_kernel_memory_err, h1, h, not_lt.mpr h3]

theorem dispatch_trace :
    ∃ l ev wc rc, (dispatch env s).trace = s.trace ++
      ([Call.enqueueNDRangeKernel (toSizeT s.SZ) l ev, Call.waitForEvents ev wc,
        Call.enqueueReadBuffer .bufV_out true (byteSize s.SZ) .v_out rc,
        Call.print .v_out] ++ releaseCalls) ∧ (l = 0 → ev = some env.eventId) ∧
      (l = 0 → env.launchErr = 0) ∧ (rc = 0 → env.readErr = 0) := by
  refine ⟨launchCode env s, (clEnqueueNDRangeKernel env (toSizeT s.SZ) s).event,
    waitCode env (clEnqueueNDRangeKernel env (toSizeT s.SZ) s),
    transferCode env.readErr .bufV_out
      (clWaitForEvents env (clEnqueueNDRangeKernel env (toSizeT s.SZ) s)), ?_, ?_,
    launchCode_zero env s, transferCode_zero _ _ _⟩
  · simp [dispatch, free_memory_trace]
  · intro h
    rw [clEnqueueNDRangeKernel_event, if_pos h]

theorem main_trace_ok (h : setupOk env = true) :
    ∃ w1 w2 l ev wc rc, (main env).trace =
      [Call.print .v1, Call.print .v2] ++ setupCalls env ++
        pipelineCalls env (env.argv1.getD 100000000) w1 w2 l ev wc rc ∧
      (l = 0 → ev = some env.eventId) ∧
      (w1 = 0 → env.writeErr .bufV1 = 0) ∧ (w2 = 0 → env.writeErr .bufV2 = 0) ∧
      (l = 0 → env.launchErr = 0) ∧ (rc = 0 → env.readErr = 0) := by
  have h2 := setup_trace env (hostInit env) (hostInit_exited env)
  have h4 := main_SZ_afterSetup env
  obtain ⟨l, ev, wc, rc, hd, hev, hl, hr⟩ := dispatch_trace env (copy_kernel_args env
    (setup_kernel_memory env (setup_openCL_device_context_queue_kernel env (hostInit env))))
  obtain ⟨w1, w2, hm, hw1, hw2⟩ := setup_kernel_memory_calls env
    (setup_openCL_device_context_queue_kernel env (hostInit env))
  rw [copy_kernel_args_trace, hm, copy_kernel_args_SZ,
    setup_kernel_memory_SZ, h4, h2, hostInit_trace] at hd
  refine ⟨w1, w2, l, ev, wc, rc, ?_, hev, hw1, hw2, hl, hr⟩
  rw [main_eq_ok env h, hd]
  simp only [pipelineCalls, List.append_assoc, List.cons_append, List.nil_append]

end Program

/-! ## The shape of the set-up phase -/

/-- The seven ways the set-up phase can go: the stage that stops it, or none. -/
theorem setupCalls_cases (env : Env) :
    (setupOk env = false ∧ setupCalls env = deviceCalls env) ∨
    (setupOk env = false ∧ env.ctxErr < 0 ∧
      setupCalls env = deviceCalls env ++ [Call.createContext env.ctxErr]) ∨
    (setupOk env = false ∧ 0 ≤ env.ctxErr ∧
      setupCalls env = deviceCalls env ++ [Call.createContext env.ctxErr, Call.fopen false]) ∨
    (setupOk env = false ∧ 0 ≤ env.ctxErr ∧ env.buildErr < 0 ∧
      setupCalls env = deviceCalls env ++
        [Call.createContext env.ctxErr, Call.fopen true, Call.buildProgram env.buildErr]) ∨
    (setupOk env = false ∧ 0 ≤ env.ctxErr ∧ 0 ≤ env.buildErr ∧ env.queueErr < 0 ∧
      setupCalls env = deviceCalls env ++
        [Call.createContext env.ctxErr, Call.fopen true, Call.buildProgram env.buildErr,
         Call.createCommandQueue env.queueErr]) ∨
    (setupOk env = false ∧ 0 ≤ env.ctxErr ∧ 0 ≤ env.buildErr ∧ 0 ≤ env.queueErr ∧
      env.kernelErr < 0 ∧
      setupCalls env = deviceCalls env ++
        [Call.createContext env.ctxErr, Call.fopen true, Call.buildProgram env.buildErr,
         Call.createCommandQueue env.queueErr, Call.createKernel env.kernelErr]) ∨
    (setupOk env = true ∧ 0 ≤ env.ctxErr ∧ 0 ≤ env.buildErr ∧ 0 ≤ env.queueErr ∧
      0 ≤ env.kernelErr ∧
      setupCalls env = deviceCalls env ++
        [Call.createContext env.ctxErr, Call.fopen true, Call.buildProgram env.buildErr,
         Call.createCommandQueue env.queueErr, Call.createKernel env.kernelErr]) := by
  simp only [setupCalls, setupOk, buildCalls, buildOk]
  by_cases hd : deviceOk env = true
  · by_cases hc : env.ctxErr < 0
    · right; left
      simp [hd, hc]
    · have hc2 : 0 ≤ env.ctxErr := not_lt.mp hc
      by_cases hf : env.fopenOk = true
      · by_cases hb : env.buildErr < 0
        · right; right; right; left
          simp [hd, hc, hf, hb, hc2]
        · have hb2 : 0 ≤ env.buildErr := not_lt.mp hb
          by_cases hq : env.queueErr < 0
          · right; right; right; right; left
            simp [hd, hc, hf, hb, hc2, hb2, hq]
          · have hq2 : 0 ≤ env.queueErr := not_lt.mp hq
            by_cases hk : env.kernelErr < 0
            · right; right; right; right; right; left
              simp [hd, hc, hf, hb, hc2, hb2, hq, hq2, hk]
            · have hk2 : 0 ≤ env.kernelErr := not_lt.mp hk
              right; right; right; right; right; right
              simp [hd, hc, hf, hb, hc2, hb2, hq, hq2, hk, hk2]
      · right; right; left
        simp [hd, hc, hf, hc2]
  · left
    simp [hd]

theorem deviceCalls_cases (env : Env) :
    deviceCalls env = [Call.getDeviceIDs true true] ∨
      ∃ ok, deviceCalls env = [Call.getDeviceIDs true false, Call.getDeviceIDs false ok] := by
  simp only [deviceCalls]
  split_ifs
  · exact Or.inl rfl
  · exact Or.inr ⟨_, rfl⟩

/-- The shape of every run: the two prints, the device selection `D`, and then
one of seven continuations `L`, six of them ending at the stage that failed. -/
theorem main_shape (env : Env) :
    ∃ D L, (main env).trace = [Call.print .v1, Call.print .v2] ++ (D ++ L) ∧
      (D = [Call.getDeviceIDs true true] ∨
        ∃ ok, D = [Call.getDeviceIDs true false, Call.getDeviceIDs false ok]) ∧
      (((main env).exited = some 1 ∧ L = []) ∨
       ((main env).exited = some 1 ∧ env.ctxErr < 0 ∧ L = [Call.createContext env.ctxErr]) ∨
       ((main env).exited = some 1 ∧ 0 ≤ env.ctxErr ∧
          L = [Call.createContext env.ctxErr, Call.fopen false]) ∨
       ((main env).exited = some 1 ∧ (0 ≤ env.ctxErr ∧ env.buildErr < 0) ∧
          L = [Call.createContext env.ctxErr, Call.fopen true,
            Call.buildProgram env.buildErr]) ∨
       ((main env).exited = some 1 ∧ (0 ≤ env.ctxErr ∧ 0 ≤ env.buildErr ∧ env.queueErr < 0) ∧
          L = [Call.createContext env.ctxErr, Call.fopen true, Call.buildProgram env.buildErr,
            Call.createCommandQueue env.queueErr]) ∨
       ((main env).exited = some 1 ∧
          (0 ≤ env.ctxErr ∧ 0 ≤ env.buildErr ∧ 0 ≤ env.queueErr ∧ env.kernelErr < 0) ∧
          L = [Call.createContext env.ctxErr, Call.fopen true, Call.buildProgram env.buildErr,
            Call.createCommandQueue env.queueErr, Call.createKernel env.kernelErr]) ∨
       ((main env).exited = some 0 ∧
          (0 ≤ env.ctxErr ∧ 0 ≤ env.buildErr ∧ 0 ≤ env.queueErr ∧ 0 ≤ env.kernelErr) ∧
          ∃ w1 w2 l ev wc rc,
            L = [Call.createContext env.ctxErr, Call.fopen true, Call.buildProgram env.buildErr,
              Call.createCommandQueue env.queueErr, Call.createKernel env.kernelErr] ++
              pipelineCalls env (env.argv1.getD 100000000) w1 w2 l ev wc rc ∧
            (l = 0 → ev = some env.eventId))) := by
  have hx := main_exited env
  by_cases hok : setupOk env = true
  · obtain ⟨w1, w2, l, ev, wc, rc, ht, hev, -⟩ := main_trace_ok env hok
    rw [hok] at hx
    rcases setupCalls_cases env with h | h | h | h | h | h | h
    all_goals try (rw [hok] at h; simp at h; done)
    obtain ⟨-, h1, h2, h3, h4, hs⟩ := h
    refine ⟨deviceCalls env,
      [Call.createContext env.ctxErr, Call.fopen true, Call.buildProgram env.buildErr,
        Call.createCommandQueue env.queueErr, Call.createKernel env.kernelErr] ++
        pipelineCalls env (env.argv1.getD 100000000) w1 w2 l ev wc rc,
      ?_, deviceCalls_cases env, ?_⟩
    · rw [ht, hs]; simp only [List.append_assoc]
    · iterate 6 right
      exact ⟨by simpa using hx, ⟨h1, h2, h3, h4⟩, w1, w2, l, ev, wc, rc, rfl, hev⟩
  · have hok2 : setupOk env = false := by simpa using hok
    have ht := main_trace_failed env hok2
    rw [hok2] at hx
    have hx1 : (main env).exited = some 1 := by simpa using hx
    rcases setupCalls_cases env with h | h | h | h | h | h | h
    · exact ⟨deviceCalls env, [], by rw [ht, h.2]; simp, deviceCalls_cases env,
        Or.inl ⟨hx1, rfl⟩⟩
    · exact ⟨deviceCalls env, _, by rw [ht, h.2.2], deviceCalls_cases env,
        Or.inr (Or.inl ⟨hx1, h.2.1, rfl⟩)⟩
    · exact ⟨deviceCalls env, _, by rw [ht, h.2.2], deviceCalls_cases env,
        Or.inr (Or.inr (Or.inl ⟨hx1, h.2.1, rfl⟩))⟩
    · obtain ⟨-, h1, h2, hs⟩ := h
      exact ⟨deviceCalls env, _, by rw [ht, hs], deviceCalls_cases env,
        Or.inr (Or.inr (Or.inr (Or.inl ⟨hx1, ⟨h1, h2⟩, rfl⟩)))⟩
    · obtain ⟨-, h1, h2, h3, hs⟩ := h
      exact ⟨deviceCalls env, _, by rw [ht, hs], deviceCalls_cases env,
        Or.inr (Or.inr (Or.inr (Or.inr (Or.inl ⟨hx1, ⟨h1, h2, h3⟩, rfl⟩))))⟩
    · obtain ⟨-, h1, h2, h3, h4, hs⟩ := h
      exact ⟨deviceCalls env, _, by rw [ht, hs], deviceCalls_cases env,
        Or.inr (Or.inr (Or.inr (Or.inr (Or.inr (Or.inl ⟨hx1, ⟨h1, h2, h3, h4⟩, rfl⟩)))))⟩
    · rw [hok2] at h; simp at h

/-! ## Teardown order -/

/-- C5: `free_memory` appends exactly ten calls to the trace: the releases of
`bufV1`, `bufV2`, `bufV_out`, then of the kernel, the command queue, the
program and the context, and last the `free` of `v1`, `v2`, `v_out`.  Among
these ten calls each occurs exactly once, every release of a resource of the
context comes before the release of the context, and the host arrays are
freed after it. -/
theorem free_memory_release_order (s : State) :
    (free_memory s).trace = s.trace ++
      [Call.releaseMemObject .bufV1, Call.releaseMemObject .bufV2,
       Call.releaseMemObject .bufV_out, Call.releaseKernel, Call.releaseCommandQueue,
       Call.releaseProgram, Call.releaseContext,
       Call.free .v1, Call.free .v2, Call.free .v_out] ∧
    (∀ c ∈ (free_memory s).trace.drop s.trace.length,
      ((free_memory s).trace.drop s.trace.length).count c = 1) ∧
    (∀ c ∈ [Call.releaseMemObject .bufV1, Call.releaseMemObject .bufV2,
        Call.releaseMemObject .bufV_out, Call.releaseKernel, Call.releaseCommandQueue,
        Call.releaseProgram],
      ((free_memory s).trace.drop s.trace.length).indexOf c <
        ((free_memory s).trace.drop s.trace.length).indexOf Call.releaseContext) ∧
    (∀ h : HostSlot,
      ((free_memory s).trace.drop s.trace.length).indexOf Call.releaseContext <
        ((free_memory s).trace.drop s.trace.length).indexOf (Call.free h)) := by
  have h : (free_memory s).trace.drop s.trace.length = releaseCalls := by
    rw [free_memory_trace]; simp
  rw [h, free_memory_trace]
  refine ⟨rfl, by decide, by decide, ?_⟩
  intro h; cases h <;> decide

/-! ## Order of the stages -/

set_option maxRecDepth 4000 in
/-- C7, as stated, fails: in the run `env8`, where every stage succeeds, the
stages are not entered in the order device selection, context creation,
program build, kernel resolution, command-queue creation, buffers, binding,
dispatch, teardown: the command queue is created before the kernel. -/
theorem stage_order_kernel_before_queue_fails :
    stagesOf (main env8).trace ≠
        [.deviceSelection, .contextCreation, .programBuild, .kernelResolution, .queueCreation,
         .bufferAllocUpload, .argumentBinding, .dispatchSync, .teardown] ∧
      (main env8).trace.indexOf (Call.createCommandQueue 0) <
        (main env8).trace.indexOf (Call.createKernel 0) ∧
      Call.createKernel 0 ∈ (main env8).trace := by decide

/-- C7, amended: on every run that returns from `main`, the stages are entered
in the order device selection, context creation, program build, command-queue
creation, kernel resolution (`clCreateKernel`), buffer allocation and upload,
argument binding, dispatch and synchronisation, teardown; none is entered
twice. -/
theorem stage_order (env : Env) (h : (main env).exited = some 0) :
    stagesOf (main env).trace =
      [.deviceSelection, .contextCreation, .programBuild, .queueCreation, .kernelResolution,
       .bufferAllocUpload, .argumentBinding, .dispatchSync, .teardown] := by
  obtain ⟨D, L, ht, hD, hL⟩ := main_shape env
  rw [ht]
  rcases hL with ⟨hx, -⟩ | ⟨hx, -⟩ | ⟨hx, -⟩ | ⟨hx, -⟩ | ⟨hx, -⟩ | ⟨hx, -⟩ |
    ⟨hx, h1, w1, w2, l, ev, wc, rc, rfl, hev⟩
  all_goals try (rw [hx] at h; simp at h; done)
  rcases hD with rfl | ⟨ok, rfl⟩ <;> rfl

set_option maxRecDepth 4000 in
/-- Witness of `stage_order`: the run `env8`. -/
theorem stage_order_witness :
    (main env8).exited = some 0 ∧
      stagesOf (main env8).trace =
        [.deviceSelection, .contextCreation, .programBuild, .queueCreation, .kernelResolution,
         .bufferAllocUpload, .argumentBinding, .dispatchSync, .teardown] :=
  ⟨by decide, stage_order env8 (by decide)⟩

/-! ## Failures of the set-up phase -/

/-- C9: when a creation call of the set-up phase (`clCreateContext`,
`clCreateCommandQueueWithProperties`, `clCreateKernel`) occurs in a run and
returns a negative code, the process exits with status 1, that call is the
last call of the run, and the run contains no buffer allocation, transfer,
binding, launch or release.  When the failing call is `clCreateKernel`, it
comes directly after a successful `fopen`, a program build with a
non-negative code, and the creation of the command queue. -/
theorem creation_failure_is_fatal (env : Env) (c : Call) (hc : c ∈ (main env).trace)
    (hcre : c.isCreation = true) (hf : c.failed = true) :
    (main env).exited = some 1 ∧ (main env).trace.getLast? = some c ∧
    (∀ d ∈ (main env).trace, d.isCreateBuffer = false ∧ d.isPipeline = false) ∧
    (∀ e, c = Call.createKernel e → ∃ pre b q, 0 ≤ b ∧
      (main env).trace = pre ++ [Call.fopen true, Call.buildProgram b,
        Call.createCommandQueue q, Call.createKernel e]) := by
  obtain ⟨D, L, ht, hD, hL⟩ := main_shape env
  rw [ht] at hc ⊢
  rcases hD with rfl | ⟨ok, rfl⟩ <;>
  rcases hL with ⟨hx, rfl⟩ | ⟨hx, h1, rfl⟩ | ⟨hx, h1, rfl⟩ | ⟨hx, h1, rfl⟩ | ⟨hx, h1, rfl⟩ |
    ⟨hx, h1, rfl⟩ | ⟨hx, h1, w1, w2, l, ev, wc, rc, rfl, hev⟩
  all_goals
    simp only [pipelineCalls, releaseCalls, List.cons_append, List.nil_append, List.mem_cons,
      List.mem_singleton, List.not_mem_nil, or_false, List.append_nil] at hc
    casesm* _ ∨ _
    all_goals subst_vars
    all_goals try (simp [Call.isCreation] at hcre; done)
    all_goals try (simp [Call.failed] at hf; omega)
  all_goals
    refine ⟨hx, by simp, ?_, ?_⟩
    · intro d hd
      simp only [List.cons_append, List.nil_append, List.mem_cons,
        List.mem_singleton, List.not_mem_nil, or_false] at hd
      casesm* _ ∨ _
      all_goals subst_vars
      all_goals simp [Call.isCreateBuffer, Call.isPipeline]
    · intro e he
      first
        | (cases he; done)
        | (cases he
           exact ⟨[Call.print .v1, Call.print .v2, Call.getDeviceIDs true true,
             Call.createContext env.ctxErr], env.buildErr, env.queueErr, h1.2.1, rfl⟩)
        | (cases he
           exact ⟨[Call.print .v1, Call.print .v2, Call.getDeviceIDs true false,
             Call.getDeviceIDs false ok, Call.createContext env.ctxErr], env.buildErr,
             env.queueErr, h1.2.1, rfl⟩)

set_option maxRecDepth 4000 in
/-- Witness of `creation_failure_is_fatal`: the run `envNoKernel`, in which the
entry point is not found. -/
theorem creation_failure_is_fatal_witness :
    Call.createKernel (-46) ∈ (main envNoKernel).trace ∧
    (main envNoKernel).exited = some 1 ∧
    (main envNoKernel).trace.getLast? = some (Call.createKernel (-46)) ∧
    (∀ d ∈ (main envNoKernel).trace, d.isCreateBuffer = false ∧ d.isPipeline = false) ∧
    (∀ e, Call.createKernel (-46) = Call.createKernel e → ∃ pre b q, 0 ≤ b ∧
      (main envNoKernel).trace = pre ++ [Call.fopen true, Call.buildProgram b,
        Call.createCommandQueue q, Call.createKernel e]) :=
  ⟨by decide, creation_failure_is_fatal envNoKernel (Call.createKernel (-46)) (by decide)
    (by decide) (by decide)⟩

/-- C4: when `fopen` returns NULL in a run, the process exits with status 1,
the `fopen` call is the last call of the run, and the run contains no
`clCreateBuffer`, no command-queue creation and no kernel creation. -/
theorem missing_source_file_is_fatal (env : Env)
    (hc : Call.fopen false ∈ (main env).trace) :
    (main env).exited = some 1 ∧ (main env).trace.getLast? = some (Call.fopen false) ∧
    (∀ d ∈ (main env).trace, d.isCreateBuffer = false) ∧
    (∀ e, Call.createCommandQueue e ∉ (main env).trace ∧
      Call.createKernel e ∉ (main env).trace) := by
  obtain ⟨D, L, ht, hD, hL⟩ := main_shape env
  rw [ht] at hc ⊢
  rcases hD with rfl | ⟨ok, rfl⟩ <;>
  rcases hL with ⟨hx, rfl⟩ | ⟨hx, h1, rfl⟩ | ⟨hx, h1, rfl⟩ | ⟨hx, h1, rfl⟩ | ⟨hx, h1, rfl⟩ |
    ⟨hx, h1, rfl⟩ | ⟨hx, h1, w1, w2, l, ev, wc, rc, rfl, hev⟩
  all_goals try (simp [pipelineCalls, releaseCalls] at hc; done)
  all_goals
    refine ⟨hx, by simp, ?_, ?_⟩
    · intro d hd
      simp only [List.cons_append, List.nil_append, List.mem_cons,
        List.mem_singleton, List.not_mem_nil, or_false] at hd
      casesm* _ ∨ _
      all_goals subst_vars
      all_goals simp [Call.isCreateBuffer]
    · intro e
      simp

set_option maxRecDepth 4000 in
/-- Witness of `missing_source_file_is_fatal`: the run `envNoFile`. -/
theorem missing_source_file_is_fatal_witness :
    Call.fopen false ∈ (main envNoFile).trace ∧
    (main envNoFile).exited = some 1 ∧
    (main envNoFile).trace.getLast? = some (Call.fopen false) ∧
    (∀ d ∈ (main envNoFile).trace, d.isCreateBuffer = false) ∧
    (∀ e, Call.createCommandQueue e ∉ (main envNoFile).trace ∧
      Call.createKernel e ∉ (main envNoFile).trace) :=
  ⟨by decide, missing_source_file_is_fatal envNoFile (by decide)⟩

/-! ## Sizes -/


theorem byteSize_nonneg_int (n : Int) (h0 : 0 ≤ n) (h1 : n ≤ 2 ^ 31 - 1) :
    (byteSize n : Int) = 4 * n ∧ (toSizeT n : Int) = n := by
  unfold byteSize toSizeT
  omega

theorem byteSize_neg_int (n : Int) :
    (byteSize n : Int) = (4 * n) % 2 ^ 64 := by
  unfold byteSize toSizeT
  omega

/-! ## Order of the driver operations -/

/-- C6: on every run that returns from `main`, the calls from the first
allocation on are, in this order: the three allocations, the blocking write of
`v1` into `bufV1`, the blocking write of `v2` into `bufV2`, the four bindings
of slots 0 to 3, one launch, one wait on the value the launch left in the
event variable (the event of the launch when the launch succeeded), one
blocking read of `bufV_out` into `v_out`, the print of `v_out`, and the ten
calls of `free_memory`.  No transfer, binding, launch, wait or release occurs
before them. -/
theorem pipeline_order (env : Env) (h : (main env).exited = some 0) :
    ∃ pre a1 a2 a3 w1 w2 e0 e1 e2 e3 b g l ev wc rc,
      (main env).trace = pre ++
        [Call.createBuffer .bufV1 b a1, Call.createBuffer .bufV2 b a2,
         Call.createBuffer .bufV_out b a3,
         Call.enqueueWriteBuffer .bufV1 true b .v1 w1,
         Call.enqueueWriteBuffer .bufV2 true b .v2 w2,
         Call.setKernelArg 0 4 e0, Call.setKernelArg 1 8 e1,
         Call.setKernelArg 2 8 e2, Call.setKernelArg 3 8 e3,
         Call.enqueueNDRangeKernel g l ev,
         Call.waitForEvents ev wc,
         Call.enqueueReadBuffer .bufV_out true b .v_out rc,
         Call.print .v_out,
         Call.releaseMemObject .bufV1, Call.releaseMemObject .bufV2,
         Call.releaseMemObject .bufV_out, Call.releaseKernel, Call.releaseCommandQueue,
         Call.releaseProgram, Call.releaseContext,
         Call.free .v1, Call.free .v2, Call.free .v_out] ∧
      (∀ c ∈ pre, c.isPipeline = false ∧ c.isCreateBuffer = false) ∧
      (l = 0 → ev = some env.eventId) := by
  obtain ⟨D, L, ht, hD, hL⟩ := main_shape env
  rcases hL with ⟨hx, -⟩ | ⟨hx, -⟩ | ⟨hx, -⟩ | ⟨hx, -⟩ | ⟨hx, -⟩ | ⟨hx, -⟩ |
    ⟨hx, h1, w1, w2, l, ev, wc, rc, rfl, hev⟩
  all_goals try (rw [hx] at h; simp at h; done)
  refine ⟨[Call.print .v1, Call.print .v2] ++ (D ++
      [Call.createContext env.ctxErr, Call.fopen true, Call.buildProgram env.buildErr,
        Call.createCommandQueue env.queueErr, Call.createKernel env.kernelErr]),
    allocAnswer env .bufV1 (byteSize (env.argv1.getD 100000000)),
    allocAnswer env .bufV2 (byteSize (env.argv1.getD 100000000)),
    allocAnswer env .bufV_out (byteSize (env.argv1.getD 100000000)),
    w1, w2, env.argErr 0, env.argErr 1, env.argErr 2, env.argErr 3,
    byteSize (env.argv1.getD 100000000), toSizeT (env.argv1.getD 100000000),
    l, ev, wc, rc, ?_, ?_, hev⟩
  · rw [ht]
    simp only [pipelineCalls, releaseCalls, List.append_assoc, List.cons_append,
      List.nil_append]
  · intro c hc
    rcases hD with rfl | ⟨ok, rfl⟩
    all_goals
      simp only [List.cons_append, List.nil_append, List.mem_cons,
        List.mem_singleton, List.not_mem_nil, or_false] at hc
      casesm* _ ∨ _
      all_goals subst_vars
      all_goals simp [Call.isCreateBuffer, Call.isPipeline]

set_option maxRecDepth 4000 in
/-- Witness of `pipeline_order`: the run `env8`. -/
theorem pipeline_order_witness :
    (main env8).exited = some 0 ∧
    ∃ pre a1 a2 a3 w1 w2 e0 e1 e2 e3 b g l ev wc rc,
      (main env8).trace = pre ++
        [Call.createBuffer .bufV1 b a1, Call.createBuffer .bufV2 b a2,
         Call.createBuffer .bufV_out b a3,
         Call.enqueueWriteBuffer .bufV1 true b .v1 w1,
         Call.enqueueWriteBuffer .bufV2 true b .v2 w2,
         Call.setKernelArg 0 4 e0, Call.setKernelArg 1 8 e1,
         Call.setKernelArg 2 8 e2, Call.setKernelArg 3 8 e3,
         Call.enqueueNDRangeKernel g l ev,
         Call.waitForEvents ev wc,
         Call.enqueueReadBuffer .bufV_out true b .v_out rc,
         Call.print .v_out,
         Call.releaseMemObject .bufV1, Call.releaseMemObject .bufV2,
         Call.releaseMemObject .bufV_out, Call.releaseKernel, Call.releaseCommandQueue,
         Call.releaseProgram, Call.releaseContext,
         Call.free .v1, Call.free .v2, Call.free .v_out] ∧
      (∀ c ∈ pre, c.isPipeline = false ∧ c.isCreateBuffer = false) ∧
      (l = 0 → ev = some env8.eventId) :=
  ⟨by decide, pipeline_order env8 (by decide)⟩

/-- C10: on every run that returns from `main`, the six byte sizes passed to
the three allocations, the two uploads and the readback are all
`byteSize SZ`, and the one global work size passed to a launch is
`toSizeT SZ`.  For `0 <= SZ <= 2^31 - 1` these are exactly `4 * SZ` and `SZ`;
for negative `SZ` the byte size is `(4 * SZ) mod 2^64`. -/
theorem transfer_sizes (env : Env) (h : (main env).exited = some 0) :
    (main env).trace.filterMap Call.bytes? = List.replicate 6 (byteSize (main env).SZ) ∧
    (main env).trace.filterMap Call.global? = [toSizeT (main env).SZ] ∧
    (0 ≤ (main env).SZ ∧ (main env).SZ ≤ 2 ^ 31 - 1 →
      (byteSize (main env).SZ : Int) = 4 * (main env).SZ ∧
      (toSizeT (main env).SZ : Int) = (main env).SZ) ∧
    ((main env).SZ < 0 → (byteSize (main env).SZ : Int) = (4 * (main env).SZ) % 2 ^ 64) := by
  obtain ⟨D, L, ht, hD, hL⟩ := main_shape env
  rcases hL with ⟨hx, -⟩ | ⟨hx, -⟩ | ⟨hx, -⟩ | ⟨hx, -⟩ | ⟨hx, -⟩ | ⟨hx, -⟩ |
    ⟨hx, h1, w1, w2, l, ev, wc, rc, rfl, hev⟩
  all_goals try (rw [hx] at h; simp at h; done)
  rw [ht, main_SZ]
  refine ⟨?_, ?_, fun hb => byteSize_nonneg_int _ hb.1 hb.2, fun _ => byteSize_neg_int _⟩
  · rcases hD with rfl | ⟨ok, rfl⟩ <;> rfl
  · rcases hD with rfl | ⟨ok, rfl⟩ <;> rfl

set_option maxRecDepth 4000 in
/-- Witness of `transfer_sizes`: the run `env8` with `SZ = 8`, and the run
`envNegative` with `SZ = -1`. -/
theorem transfer_sizes_witness :
    ((main env8).exited = some 0 ∧ (main env8).SZ = 8 ∧
      (main env8).trace.filterMap Call.bytes? = List.replicate 6 32 ∧
      (main env8).trace.filterMap Call.global? = [8] ∧
      (byteSize (main env8).SZ : Int) = 4 * (main env8).SZ ∧
      (toSizeT (main env8).SZ : Int) = (main env8).SZ) ∧
    ((main envNegative).exited = some 0 ∧ (main envNegative).SZ = -1 ∧
      (byteSize (main envNegative).SZ : Int) = (4 * (main envNegative).SZ) % 2 ^ 64) :=
  ⟨⟨by decide, by decide, (transfer_sizes env8 (by decide)).1,
      (transfer_sizes env8 (by decide)).2.1,
      (transfer_sizes env8 (by decide)).2.2.1 ⟨by decide, by decide⟩⟩,
    ⟨by decide, by decide, (transfer_sizes envNegative (by decide)).2.2.2 (by decide)⟩⟩

/-! ## Ignored answers of the driver -/

set_option maxRecDepth 4000 in
/-- C8, as stated, fails: in the run `envLaunchFail` the launch is refused
with code `-5`, and the run goes on with the wait, the readback into `v_out`,
the print of `v_out` and the teardown, and returns from `main` with status 0. -/
theorem launch_failure_not_fatal :
    (main envLaunchFail).exited = some 0 ∧
    (main envLaunchFail).trace.drop 17 =
      [Call.enqueueNDRangeKernel 8 (-5) none,
       Call.waitForEvents none CL_INVALID_EVENT,
       Call.enqueueReadBuffer .bufV_out true 32 .v_out 0,
       Call.print .v_out,
       Call.releaseMemObject .bufV1, Call.releaseMemObject .bufV2,
       Call.releaseMemObject .bufV_out, Call.releaseKernel, Call.releaseCommandQueue,
       Call.releaseProgram, Call.releaseContext,
       Call.free .v1, Call.free .v2, Call.free .v_out] ∧
    (main envLaunchFail).stdout.getLast? = some (main envLaunchFail).v_out := by decide

/-- C8, amended: whatever code the launch returns, a negative one included,
the run goes on exactly as after a successful launch: the launch is followed
by the wait on the event variable, the blocking read of `bufV_out` into
`v_out`, the print of `v_out` and the ten calls of `free_memory`, and `main`
returns with status 0. -/
theorem launch_result_is_ignored (env : Env) (g : Nat) (l : Int) (ev : Option Nat)
    (hc : Call.enqueueNDRangeKernel g l ev ∈ (main env).trace) :
    (main env).exited = some 0 ∧
    ∃ pre wc rc, (main env).trace = pre ++
      [Call.enqueueNDRangeKernel g l ev,
       Call.waitForEvents ev wc,
       Call.enqueueReadBuffer .bufV_out true (byteSize (main env).SZ) .v_out rc,
       Call.print .v_out,
       Call.releaseMemObject .bufV1, Call.releaseMemObject .bufV2,
       Call.releaseMemObject .bufV_out, Call.releaseKernel, Call.releaseCommandQueue,
       Call.releaseProgram, Call.releaseContext,
       Call.free .v1, Call.free .v2, Call.free .v_out] := by
  obtain ⟨D, L, ht, hD, hL⟩ := main_shape env
  rw [ht] at hc
  rw [ht, main_SZ]
  rcases hL with ⟨hx, rfl⟩ | ⟨hx, h1, rfl⟩ | ⟨hx, h1, rfl⟩ | ⟨hx, h1, rfl⟩ | ⟨hx, h1, rfl⟩ |
    ⟨hx, h1, rfl⟩ | ⟨hx, h1, w1, w2, l2, ev2, wc, rc, rfl, hev⟩
  all_goals try (rcases hD with rfl | ⟨ok, rfl⟩ <;> simp at hc; done)
  have hl : l2 = l ∧ ev2 = ev ∧ toSizeT (env.argv1.getD 100000000) = g := by
    rcases hD with rfl | ⟨ok, rfl⟩ <;>
      simp [pipelineCalls, releaseCalls] at hc <;> simp [hc]
  obtain ⟨rfl, rfl, rfl⟩ := hl
  refine ⟨hx, [Call.print .v1, Call.print .v2] ++ (D ++
      ([Call.createContext env.ctxErr, Call.fopen true, Call.buildProgram env.buildErr,
        Call.createCommandQueue env.queueErr, Call.createKernel env.kernelErr] ++
       [Call.createBuffer .bufV1 (byteSize (env.argv1.getD 100000000))
          (allocAnswer env .bufV1 (byteSize (env.argv1.getD 100000000))),
        Call.createBuffer .bufV2 (byteSize (env.argv1.getD 100000000))
          (allocAnswer env .bufV2 (byteSize (env.argv1.getD 100000000))),
        Call.createBuffer .bufV_out (byteSize (env.argv1.getD 100000000))
          (allocAnswer env .bufV_out (byteSize (env.argv1.getD 100000000))),
        Call.enqueueWriteBuffer .bufV1 true (byteSize (env.argv1.getD 100000000)) .v1 w1,
        Call.enqueueWriteBuffer .bufV2 true (byteSize (env.argv1.getD 100000000)) .v2 w2,
        Call.setKernelArg 0 4 (env.argErr 0), Call.setKernelArg 1 8 (env.argErr 1),
        Call.setKernelArg 2 8 (env.argErr 2), Call.setKernelArg 3 8 (env.argErr 3)])),
    wc, rc, ?_⟩
  simp only [pipelineCalls, releaseCalls, List.append_assoc, List.cons_append,
    List.nil_append]

set_option maxRecDepth 4000 in
/-- Witness of `launch_result_is_ignored`: the run `envLaunchFail`. -/
theorem launch_result_is_ignored_witness :
    Call.enqueueNDRangeKernel 8 (-5) none ∈ (main envLaunchFail).trace ∧
    (main envLaunchFail).exited = some 0 ∧
    ∃ pre wc rc, (main envLaunchFail).trace = pre ++
      [Call.enqueueNDRangeKernel 8 (-5) none,
       Call.waitForEvents none wc,
       Call.enqueueReadBuffer .bufV_out true (byteSize (main envLaunchFail).SZ) .v_out rc,
       Call.print .v_out,
       Call.releaseMemObject .bufV1, Call.releaseMemObject .bufV2,
       Call.releaseMemObject .bufV_out, Call.releaseKernel, Call.releaseCommandQueue,
       Call.releaseProgram, Call.releaseContext,
       Call.free .v1, Call.free .v2, Call.free .v_out] :=
  ⟨by decide, launch_result_is_ignored envLaunchFail 8 (-5) none (by decide)⟩

set_option maxRecDepth 4000 in
/-- C2, evaluated against the code: the exit test of `copy_kernel_args` reads
the file-scope `err`, which no `clSetKernelArg` result is ever stored in, so
the outcome does not depend on the four binding results.  In the run
`envArgFail` the binding of slot 1 returns `CL_INVALID_ARG_SIZE`, and the run
goes on to the launch (refused for the unbound slot), the wait, the readback
and the teardown, and returns from `main` with status 0. -/
theorem copy_kernel_args_ignores_binding_errors :
    (∀ (env : Env) (s : State),
      (copy_kernel_args env s).exited = if s.err < 0 then some 1 else s.exited) ∧
    (main envArgFail).exited = some 0 ∧
    (main envArgFail).trace.drop 13 =
      [Call.setKernelArg 0 4 0, Call.setKernelArg 1 8 CL_INVALID_ARG_SIZE,
       Call.setKernelArg 2 8 0, Call.setKernelArg 3 8 0,
       Call.enqueueNDRangeKernel 8 CL_INVALID_KERNEL_ARGS none,
       Call.waitForEvents none CL_INVALID_EVENT,
       Call.enqueueReadBuffer .bufV_out true 32 .v_out 0,
       Call.print .v_out,
       Call.releaseMemObject .bufV1, Call.releaseMemObject .bufV2,
       Call.releaseMemObject .bufV_out, Call.releaseKernel, Call.releaseCommandQueue,
       Call.releaseProgram, Call.releaseContext,
       Call.free .v1, Call.free .v2, Call.free .v_out] :=
  ⟨copy_kernel_args_exited, by decide, by decide⟩

set_option maxRecDepth 4000 in
/-- C3, as stated, fails: in the run `envAllocFail` the allocation of `bufV2`
fails; `bufV1` is not released then, the third allocation and both uploads
are still issued, and the run goes on to binding, launch, readback and
teardown and returns from `main` with status 0. -/
theorem allocation_failure_not_propagated :
    (main envAllocFail).exited = some 0 ∧
    (main envAllocFail).trace.drop 8 =
      [Call.createBuffer .bufV1 32 true, Call.createBuffer .bufV2 32 false,
       Call.createBuffer .bufV_out 32 true,
       Call.enqueueWriteBuffer .bufV1 true 32 .v1 0,
       Call.enqueueWriteBuffer .bufV2 true 32 .v2 CL_INVALID_MEM_OBJECT,
       Call.setKernelArg 0 4 0, Call.setKernelArg 1 8 0,
       Call.setKernelArg 2 8 0, Call.setKernelArg 3 8 0,
       Call.enqueueNDRangeKernel 8 CL_INVALID_KERNEL_ARGS none,
       Call.waitForEvents none CL_INVALID_EVENT,
       Call.enqueueReadBuffer .bufV_out true 32 .v_out 0,
       Call.print .v_out,
       Call.releaseMemObject .bufV1, Call.releaseMemObject .bufV2,
       Call.releaseMemObject .bufV_out, Call.releaseKernel, Call.releaseCommandQueue,
       Call.releaseProgram, Call.releaseContext,
       Call.free .v1, Call.free .v2, Call.free .v_out] := by decide

/-- C3, amended: the allocation results are neither inspected nor propagated.
Whatever the three allocations answer, `setup_kernel_memory` issues the three
`clCreateBuffer` calls and then the two blocking writes, and nothing else: it
releases no buffer and it does not end the run.  The buffers are released at
teardown: a run that returns from `main` ends with the ten calls of
`free_memory`, and each of the three buffer variables is released exactly
once in the run, there. -/
theorem allocation_result_not_inspected (env : Env) (s : State) :
    (∃ w1 w2, (setup_kernel_memory env s).trace = s.trace ++
      [Call.createBuffer .bufV1 (byteSize s.SZ) (allocAnswer env .bufV1 (byteSize s.SZ)),
       Call.createBuffer .bufV2 (byteSize s.SZ) (allocAnswer env .bufV2 (byteSize s.SZ)),
       Call.createBuffer .bufV_out (byteSize s.SZ) (allocAnswer env .bufV_out (byteSize s.SZ)),
       Call.enqueueWriteBuffer .bufV1 true (byteSize s.SZ) .v1 w1,
       Call.enqueueWriteBuffer .bufV2 true (byteSize s.SZ) .v2 w2]) ∧
    (setup_kernel_memory env s).exited = s.exited ∧
    ((main env).exited = some 0 →
      (∃ pre, (main env).trace = pre ++
        [Call.releaseMemObject .bufV1, Call.releaseMemObject .bufV2,
         Call.releaseMemObject .bufV_out, Call.releaseKernel, Call.releaseCommandQueue,
         Call.releaseProgram, Call.releaseContext,
         Call.free .v1, Call.free .v2, Call.free .v_out]) ∧
      ∀ slot, (main env).trace.count (Call.releaseMemObject slot) = 1) := by
  refine ⟨⟨_, _, setup_kernel_memory_trace env s⟩, setup_kernel_memory_exited env s, ?_⟩
  intro h
  obtain ⟨D, L, ht, hD, hL⟩ := main_shape env
  rw [ht]
  rcases hL with ⟨hx, -⟩ | ⟨hx, -⟩ | ⟨hx, -⟩ | ⟨hx, -⟩ | ⟨hx, -⟩ | ⟨hx, -⟩ |
    ⟨hx, h1, w1, w2, l, ev, wc, rc, rfl, hev⟩
  all_goals try (rw [hx] at h; simp at h; done)
  refine ⟨⟨[Call.print .v1, Call.print .v2] ++ (D ++
      ([Call.createContext env.ctxErr, Call.fopen true, Call.buildProgram env.buildErr,
        Call.createCommandQueue env.queueErr, Call.createKernel env.kernelErr] ++
       [Call.createBuffer .bufV1 (byteSize (env.argv1.getD 100000000))
          (allocAnswer env .bufV1 (byteSize (env.argv1.getD 100000000))),
        Call.createBuffer .bufV2 (byteSize (env.argv1.getD 100000000))
          (allocAnswer env .bufV2 (byteSize (env.argv1.getD 100000000))),
        Call.createBuffer .bufV_out (byteSize (env.argv1.getD 100000000))
          (allocAnswer env .bufV_out (byteSize (env.argv1.getD 100000000))),
        Call.enqueueWriteBuffer .bufV1 true (byteSize (env.argv1.getD 100000000)) .v1 w1,
        Call.enqueueWriteBuffer .bufV2 true (byteSize (env.argv1.getD 100000000)) .v2 w2,
        Call.setKernelArg 0 4 (env.argErr 0), Call.setKernelArg 1 8 (env.argErr 1),
        Call.setKernelArg 2 8 (env.argErr 2), Call.setKernelArg 3 8 (env.argErr 3),
        Call.enqueueNDRangeKernel (toSizeT (env.argv1.getD 100000000)) l ev,
        Call.waitForEvents ev wc,
        Call.enqueueReadBuffer .bufV_out true (byteSize (env.argv1.getD 100000000)) .v_out rc,
        Call.print .v_out])), ?_⟩, ?_⟩
  · simp only [pipelineCalls, releaseCalls, List.append_assoc, List.cons_append,
      List.nil_append]
  · intro slot
    rcases hD with rfl | ⟨ok, rfl⟩ <;> cases slot <;>
      simp [pipelineCalls, releaseCalls, List.count_cons]

set_option maxRecDepth 4000 in
/-- Witness of `allocation_result_not_inspected`: the run `envAllocFail`, in
which the allocation of `bufV2` fails and which returns from `main`. -/
theorem allocation_result_not_inspected_witness :
    Call.createBuffer .bufV2 32 false ∈ (main envAllocFail).trace ∧
    (main envAllocFail).exited = some 0 ∧
    (∃ pre, (main envAllocFail).trace = pre ++
      [Call.releaseMemObject .bufV1, Call.releaseMemObject .bufV2,
       Call.releaseMemObject .bufV_out, Call.releaseKernel, Call.releaseCommandQueue,
       Call.releaseProgram, Call.releaseContext,
       Call.free .v1, Call.free .v2, Call.free .v_out]) ∧
    ∀ slot, (main envAllocFail).trace.count (Call.releaseMemObject slot) = 1 :=
  ⟨by decide, by decide,
    (allocation_result_not_inspected envAllocFail State.start).2.2 (by decide)⟩

/-! ## The result of a successful run -/

theorem overwrite_full (dst src : List Int) (n : Nat) (hs : src.length = n)
    (hd : dst.length = n) : overwrite dst src n = src := by
  unfold overwrite
  rw [List.take_of_length_le (le_of_eq hs), List.drop_of_length_le (le_of_eq hd),
    List.append_nil]

theorem wrapInt32_small (x : Int) (h0 : 0 ≤ x) (h1 : x < 2 ^ 31) : wrapInt32 x = x := by
  unfold wrapInt32; omega

theorem vector_add_ocl_full (a b out : List Int) (n : Nat) (ha : a.length = n)
    (hb : b.length = n) (ho : out.length = n) :
    vector_add_ocl (n : Int) a b out n = List.zipWith (fun x y => wrapInt32 (x + y)) a b := by
  apply List.ext_getElem
  · simp [vector_add_ocl, ha, hb, ho]
  · intro i h1 h2
    have hi : i < n := by simpa [vector_add_ocl, ho] using h1
    simp [vector_add_ocl, hi, ha, hb, List.getElem?_eq_getElem]

theorem pipeline_result (env : Env) (s : State) (n : Nat)
    (hSZ : s.SZ = (n : Int)) (hn : 0 < n) (hmax : n < 2 ^ 31)
    (h1 : s.v1.length = n) (h2 : s.v2.length = n) (h3 : s.v_out.length = n)
    (ha1 : env.allocOk .bufV1 = true) (ha2 : env.allocOk .bufV2 = true)
    (ha3 : env.allocOk .bufV_out = true)
    (hw1 : env.writeErr .bufV1 = 0) (hw2 : env.writeErr .bufV2 = 0)
    (hb0 : env.argErr 0 = 0) (hb1 : env.argErr 1 = 0) (hb2 : env.argErr 2 = 0)
    (hb3 : env.argErr 3 = 0) (hl : env.launchErr = 0) (hr : env.readErr = 0)
    (herr : 0 ≤ s.err) :
    (dispatch env (copy_kernel_args env (setup_kernel_memory env s))).v_out =
      List.zipWith (fun x y => wrapInt32 (x + y)) s.v1 s.v2 ∧
    (dispatch env (copy_kernel_args env (setup_kernel_memory env s))).v1 = s.v1 ∧
    (dispatch env (copy_kernel_args env (setup_kernel_memory env s))).v2 = s.v2 := by
  have hbytes : byteSize (n : Int) = 4 * n := by
    unfold byteSize toSizeT; omega
  have hg : toSizeT (n : Int) = n := by
    unfold toSizeT; omega
  have hdiv : 4 * n / 4 = n := by omega
  have hne : ¬ (n = 0) := by omega
  obtain ⟨SZ, v1, v2, v_out, b1, b2, b3, err, event, k0, k1, k2, k3, rc, out, tr, ex⟩ := s
  simp only at hSZ h1 h2 h3 herr
  subst hSZ
  have e1 := overwrite_full ((List.range n).map (env.garbage .bufV1)) v1 n h1 (by simp)
  have e2 := overwrite_full ((List.range n).map (env.garbage .bufV2)) v2 n h2 (by simp)
  have e3 := vector_add_ocl_full v1 v2 ((List.range n).map (env.garbage .bufV_out)) n h1 h2
    (by simp)
  have e4 := overwrite_full v_out (List.zipWith (fun x y => wrapInt32 (x + y)) v1 v2) n
    (by simp [h1, h2]) h3
  simp [dispatch, copy_kernel_args, setup_kernel_memory, clCreateBuffer, clEnqueueWriteBuffer,
    clEnqueueReadBuffer, clSetKernelArg, clEnqueueNDRangeKernel, clWaitForEvents,
    free_memory, print, PRINT, allocAnswer, transferCode, launchCode, runKernel, boundBuffers,
    State.setMem, State.setKarg, State.mem, State.host, State.setHost, State.call, State.exit,
    hbytes, hg, hdiv, hne, ha1, ha2, ha3, hw1, hw2, hb0, hb1, hb2, hb3, hl, hr, not_lt.mpr herr,
    e1, e2, e3, e4]

theorem zipWith_wrapInt32_small (a b : List Int) (ha : ∀ x ∈ a, 0 ≤ x ∧ x < 100)
    (hb : ∀ y ∈ b, 0 ≤ y ∧ y < 100) :
    List.zipWith (fun x y => wrapInt32 (x + y)) a b = List.zipWith (fun x y => x + y) a b := by
  induction a generalizing b with
  | nil => simp
  | cons x xs ih =>
    cases b with
    | nil => simp
    | cons y ys =>
      have hx := ha x (List.mem_cons_self _ _)
      have hy := hb y (List.mem_cons_self _ _)
      simp only [List.zipWith_cons_cons]
      rw [wrapInt32_small (x + y) (by omega) (by omega),
        ih ys (fun z hz => ha z (List.mem_cons_of_mem _ hz))
          (fun z hz => hb z (List.mem_cons_of_mem _ hz))]

theorem hostInit_lengths (env : Env) :
    (hostInit env).v1.length = (env.argv1.getD 100000000).toNat ∧
    (hostInit env).v2.length = (env.argv1.getD 100000000).toNat ∧
    (hostInit env).v_out.length = (env.argv1.getD 100000000).toNat := by
  simp [hostInit, init, print, PRINT, State.start, State.setHost, State.call]

theorem hostInit_v1 (env : Env) :
    (hostInit env).v1 = (List.range (env.argv1.getD 100000000).toNat).map
      fun i => ((env.rand (0 + i) % 100 : Nat) : Int) := by
  simp [hostInit, init, print, PRINT, State.start, State.setHost, State.call]

theorem hostInit_v2 (env : Env) :
    (hostInit env).v2 = (List.range (env.argv1.getD 100000000).toNat).map
      fun i => ((env.rand (0 + (env.argv1.getD 100000000).toNat + i) % 100 : Nat) : Int) := by
  simp [hostInit, init, print, PRINT, State.start, State.setHost, State.call]

theorem hostInit_small (env : Env) :
    (∀ x ∈ (hostInit env).v1, 0 ≤ x ∧ x < 100) ∧ (∀ x ∈ (hostInit env).v2, 0 ≤ x ∧ x < 100) := by
  rw [hostInit_v1, hostInit_v2]
  constructor <;>
  · intro x hx
    rw [List.mem_map] at hx
    obtain ⟨i, -, rfl⟩ := hx
    omega

theorem exit_host (s : State) (n : Nat) (h : HostSlot) : (s.exit n).host h = s.host h := by
  cases h <;> rfl

theorem create_device_host (env : Env) (s : State) (h : HostSlot) :
    (create_device env s).host h = s.host h := by
  simp only [create_device]; split_ifs <;> simp only [exit_host, call_host]

theorem build_program_host (env : Env) (s : State) (h : HostSlot) :
    (build_program env s).host h = s.host h := by
  have he : ∀ e : Int, ({ s.call (Call.fopen env.fopenOk) with err := e } : State).host h =
      s.host h := by
    intro e; cases h <;> rfl
  simp only [build_program, build_program_rest]; split_ifs <;> simp only [exit_host, call_host, he]

theorem setup_host (env : Env) (s : State) (h : HostSlot) :
    (setup_openCL_device_context_queue_kernel env s).host h = s.host h := by
  simp only [setup_openCL_device_context_queue_kernel]
  split_ifs <;>
    simp only [exit_host, call_host, build_program_host, create_device_host]

/-- C1: take a run with `0 < SZ <= 2^31 - 1` that returns from `main` and in
which every allocation, transfer, binding, launch and wait reports success.
Then the three host arrays have `SZ` elements and `v_out` is the elementwise
sum of `v1` and `v2`, that is `v_out[i] = v1[i] + v2[i]` for every index
`0 <= i < SZ` (the elements are `rand() % 100`, so the sum does not wrap). -/
theorem vector_add_result (env : Env) (hn : 0 < (main env).SZ)
    (hmax : (main env).SZ ≤ 2 ^ 31 - 1) (hexit : (main env).exited = some 0)
    (hsucc : ∀ c ∈ (main env).trace, c.pipelineError = false) :
    (main env).v1.length = (main env).SZ.toNat ∧
    (main env).v2.length = (main env).SZ.toNat ∧
    (main env).v_out.length = (main env).SZ.toNat ∧
    (main env).v_out = List.zipWith (fun x y => x + y) (main env).v1 (main env).v2 := by
  have hok : setupOk env = true := by
    have hx := main_exited env
    by_cases hok : setupOk env = true
    · exact hok
    · rw [hexit] at hx; simp [hok] at hx
  rw [main_SZ] at hn hmax ⊢
  obtain ⟨w1, w2, l, ev, wc, rc, ht, -, hw1, hw2, hl, hr⟩ := main_trace_ok env hok
  rw [ht] at hsucc
  have hp : ∀ c ∈ pipelineCalls env (env.argv1.getD 100000000) w1 w2 l ev wc rc,
      c.pipelineError = false := fun c hc => hsucc c (List.mem_append_right _ hc)
  simp [pipelineCalls, releaseCalls, Call.pipelineError, allocAnswer] at hp
  obtain ⟨⟨ha1, -⟩, ⟨ha2, -⟩, ⟨ha3, -⟩, e1, e2, hb0, hb1, hb2, hb3, e3, -, e4⟩ := hp
  have hS := main_SZ_afterSetup env
  have hlen := hostInit_lengths env
  have hsm := hostInit_small env
  have hv1 := setup_host env (hostInit env) .v1
  have hv2 := setup_host env (hostInit env) .v2
  have hvo := setup_host env (hostInit env) .v_out
  simp only [State.host] at hv1 hv2 hvo
  have herr := setup_err env (hostInit env) (hostInit_exited env) hok
  have hnat : ((env.argv1.getD 100000000).toNat : Int) = env.argv1.getD 100000000 :=
    Int.toNat_of_nonneg (le_of_lt hn)
  obtain ⟨r1, r2, r3⟩ := pipeline_result env
    (setup_openCL_device_context_queue_kernel env (hostInit env))
    (env.argv1.getD 100000000).toNat (by rw [hS, hnat]) (by omega) (by omega)
    (by rw [hv1, hlen.1]) (by rw [hv2, hlen.2.1]) (by rw [hvo, hlen.2.2])
    ha1 ha2 ha3 (hw1 e1) (hw2 e2) hb0 hb1 hb2 hb3 (hl e3) (hr e4) herr
  rw [main_eq_ok env hok, r1, r2, r3, hv1, hv2,
    zipWith_wrapInt32_small _ _ hsm.1 hsm.2]
  refine ⟨hlen.1, hlen.2.1, ?_, rfl⟩
  simp [hlen.1, hlen.2.1]

set_option maxRecDepth 8000 in
/-- Witness of `vector_add_result`: the run `env8`, with `SZ = 8`,
`v1 = [1,2,3,4,5,6,7,8]` and `v2 = [8,7,6,5,4,3,2,1]`, which leaves
`v_out = [9,9,9,9,9,9,9,9]`. -/
theorem vector_add_result_witness :
    (0 < (main env8).SZ ∧ (main env8).SZ ≤ 2 ^ 31 - 1 ∧ (main env8).exited = some 0 ∧
      ∀ c ∈ (main env8).trace, c.pipelineError = false) ∧
    (main env8).SZ = 8 ∧
    (main env8).v1 = [1, 2, 3, 4, 5, 6, 7, 8] ∧
    (main env8).v2 = [8, 7, 6, 5, 4, 3, 2, 1] ∧
    (main env8).v_out = [9, 9, 9, 9, 9, 9, 9, 9] ∧
    ((main env8).v1.length = (main env8).SZ.toNat ∧
      (main env8).v2.length = (main env8).SZ.toNat ∧
      (main env8).v_out.length = (main env8).SZ.toNat ∧
      (main env8).v_out = List.zipWith (fun x y => x + y) (main env8).v1 (main env8).v2) :=
  ⟨⟨by decide, by decide, by decide, by decide⟩, by decide, by decide, by decide, by decide,
    vector_add_result env8 (by decide) (by decide) (by decide) (by decide)⟩

end VectorAddOcl

